import Mathlib

/-!
# Formal model of the `wasm_gerber_viewer` Gerber parser and renderer

This file is a shallow embedding, in Lean 4, of the parts of
`src/wasm/src/parser.rs`, `src/wasm/src/renderer.rs` and `src/wasm/src/shape.rs`
that the verified properties talk about, together with theorems settling those
properties.

Modelling conventions:

* Rust `f32` / `f64` values are modelled as exact rationals (the `F32`
  structure below).  All the concrete arithmetic appearing in the theorems
  below is exact in IEEE `f32` as well, except where a theorem statement
  notes otherwise.
* Rust `HashMap` is modelled as an association list with insert-at-front and
  first-match lookup; this has the same `get`/`insert` observable behaviour.
* The external geometry libraries used by the source (`i_triangle`
  triangulation, `i_overlay` polygon boolean operations) and the `f32`
  transcendental functions (`sqrt`, `sin`, `cos`, `atan2`) are abstracted into
  an `Externals` record of parameters; the parser theorems below hold for
  every value of these parameters.  The trigonometry of the arc-interpolation
  branch is additionally modelled exactly, over `ℝ`, further below.
* In the expression evaluator the source keeps every token as a `String` and
  pushes intermediate computed values back as `value.to_string()` (Rust's
  `f32` `Display`/`parse` round trip is lossless).  Tokens are therefore
  modelled as `String ⊕ F32`, where the right summand stands for a pushed
  computed value.
-/

set_option autoImplicit false

namespace GerberViewer

/-! ## Exact rational scalars

Mathlib's `ℚ` arithmetic is `@[irreducible]`, which blocks `decide`-style
evaluation of the model, so the `f32`/`f64` values the Rust code computes are
modelled by the exact-rational structure `F32` below (value `n / d`).  Every
operation keeps the value in canonical form (`d > 0`, `gcd n d = 1`), so
structural equality is value equality for every value the model constructs.
All arithmetic appearing in the theorems is exact in IEEE `f32` as well,
except where a theorem statement notes otherwise. -/

/-- An exact rational `n / d`, modelling an `f32`/`f64` value.  All values
built by the model are canonical (`d > 0`, coprime); `d = 0` is only produced
by the (unreachable, guarded) division-by-zero case. -/
structure F32 where
  n : ℤ
  d : ℕ
  deriving DecidableEq, Repr

namespace F32

/-- Canonicalize `n / d` (for `d = 0` — guarded against in the source — the
junk value `0/0` is produced). -/
def norm (n : ℤ) (d : ℕ) : F32 :=
  if d = 0 then ⟨0, 0⟩
  else
    let g : ℕ := n.gcd d
    ⟨n / g, d / g⟩

/-- Canonicalize `n / d` for a possibly negative denominator. -/
def normInt (n d : ℤ) : F32 :=
  if d < 0 then norm (-n) (-d).toNat else norm n d.toNat

def add (x y : F32) : F32 := norm (x.n * y.d + y.n * x.d) (x.d * y.d)
def neg (x : F32) : F32 := ⟨-x.n, x.d⟩
def sub (x y : F32) : F32 := add x (neg y)
def mul (x y : F32) : F32 := norm (x.n * y.n) (x.d * y.d)
def div (x y : F32) : F32 := normInt (x.n * (y.d : ℤ)) ((x.d : ℤ) * y.n)
/-- Model of `f32::abs`. -/
def abs (x : F32) : F32 := if x.n < 0 then ⟨-x.n, x.d⟩ else x

/-- `x ≤ y` by cross multiplication (correct since model denominators are
nonnegative). -/
def ble (x y : F32) : Bool := x.n * (y.d : ℤ) ≤ y.n * (x.d : ℤ)
def blt (x y : F32) : Bool := x.n * (y.d : ℤ) < y.n * (x.d : ℤ)

instance (m : ℕ) : OfNat F32 m := ⟨⟨m, 1⟩⟩
instance : NatCast F32 := ⟨fun m => ⟨m, 1⟩⟩
instance : IntCast F32 := ⟨fun m => ⟨m, 1⟩⟩
instance : OfScientific F32 :=
  ⟨fun m b e => if b then norm (m : ℤ) (10 ^ e) else ⟨(m : ℤ) * 10 ^ e, 1⟩⟩
instance : Pow F32 ℕ := ⟨fun x k => ⟨x.n ^ k, x.d ^ k⟩⟩
instance : Add F32 := ⟨add⟩
instance : Neg F32 := ⟨neg⟩
instance : Sub F32 := ⟨sub⟩
instance : Mul F32 := ⟨mul⟩
instance : Div F32 := ⟨div⟩
instance : LE F32 := ⟨fun x y => ble x y = true⟩
instance : LT F32 := ⟨fun x y => blt x y = true⟩
instance (x y : F32) : Decidable (x ≤ y) := inferInstanceAs (Decidable (_ = true))
instance (x y : F32) : Decidable (x < y) := inferInstanceAs (Decidable (_ = true))
instance : ToString F32 := ⟨fun x => toString x.n ++ ("/") ++ toString x.d⟩

/-- The rational value of an `F32` (bridge to Mathlib's `ℚ`, used only in
statements relating the model to real-valued facts). -/
def val (x : F32) : ℚ := (x.n : ℚ) / (x.d : ℚ)

end F32


/-! ## Small string/number helpers (models of Rust std behaviour) -/

/-- Model of Rust `char::is_ascii_whitespace`. -/
def isAsciiWhitespace (c : Char) : Bool :=
  c = ' ' || c = '\t' || c = '\n' || c = '\x0c' || c = '\r'

/-- Model of Rust `str::trim` (ASCII inputs only — every string fed to it in
this development is ASCII, where Rust's Unicode trim coincides). -/
def rustTrim (s : String) : String :=
  ⟨(((s.toList.dropWhile fun c => isAsciiWhitespace c).reverse.dropWhile
      fun c => isAsciiWhitespace c)).reverse⟩

/-- Model of `str::replace(c, r)` for single characters (used for `X` → `*`). -/
def replaceChar (s : String) (c r : Char) : String :=
  ⟨s.toList.map fun x => if x = c then r else x⟩

def strEmpty (s : String) : Bool := s.toList.isEmpty

/-- Split a character list at every occurrence of `sep` (keeping empty parts),
like Rust `str::split(sep)`. -/
def splitOnChar (sep : Char) : List Char → List (List Char)
  | [] => [[]]
  | c :: cs =>
    if c = sep then [] :: splitOnChar sep cs
    else
      match splitOnChar sep cs with
      | [] => [[c]]
      | p :: ps => (c :: p) :: ps

/-- `listStartsWith l p`: `p` is a prefix of `l` (model of `str::starts_with`). -/
def listStartsWith : List Char → List Char → Bool
  | _, [] => true
  | [], _ :: _ => false
  | a :: l, b :: p => a = b && listStartsWith l p

def strStartsWith (s p : String) : Bool := listStartsWith s.toList p.toList

/-- Numeric value of a list of decimal digit characters (most significant first). -/
def digitsToNat (cs : List Char) : ℕ :=
  cs.foldl (fun a c => a * 10 + (c.toNat - ('0').toNat)) 0

/-- Model of Rust `str::parse::<f32>()` restricted to plain decimal literals
(optional sign, digits, optional fractional part).  The special forms
(`inf`, `NaN`, exponents) accepted by Rust are not modelled; no theorem below
depends on them.  The resulting value is exact where Rust would round to the
nearest `f32`. -/
def parseF32 (s : String) : Option F32 :=
  let cs := s.toList
  let signed : Bool × List Char :=
    match cs with
    | '-' :: r => (true, r)
    | '+' :: r => (false, r)
    | r => (false, r)
  let body := signed.2
  match splitOnChar ('.') body with
  | [ip] =>
    if ip.all Char.isDigit && !ip.isEmpty then
      some ((if signed.1 then -1 else 1) * (digitsToNat ip : F32))
    else none
  | [ip, fp] =>
    if ip.all Char.isDigit && fp.all Char.isDigit && !(ip.isEmpty && fp.isEmpty) then
      some ((if signed.1 then -1 else 1) *
        ((digitsToNat ip : F32) + (digitsToNat fp : F32) / (10 : F32) ^ fp.length))
    else none
  | _ => none

/-- Model of Rust `str::parse::<i64>()` (sign and digits; overflow unmodelled —
no input below comes near `i64` bounds). -/
def parseI64 (s : String) : Option ℤ :=
  let cs := s.toList
  let signed : Bool × List Char :=
    match cs with
    | '-' :: r => (true, r)
    | '+' :: r => (false, r)
    | r => (false, r)
  if signed.2.all Char.isDigit && !signed.2.isEmpty then
    some ((if signed.1 then -1 else 1) * (digitsToNat signed.2 : ℤ))
  else none

/-- Model of Rust `str::parse::<u32>()` (optional `+`, digits; overflow
unmodelled — no input below comes near `u32` bounds). -/
def parseU32 (s : String) : Option ℕ :=
  let cs := s.toList
  let body : List Char :=
    match cs with
    | '+' :: r => r
    | r => r
  if body.all Char.isDigit && !body.isEmpty then some (digitsToNat body) else none

/-! ## Expression evaluator (`parser.rs` lines 105–349)

The source's tokens are plain strings; computed intermediate values are pushed
back as strings.  `EvalTok` keeps the two apart (see the header comment). -/

instance exceptDecEq {ε α : Type} [DecidableEq ε] [DecidableEq α] :
    DecidableEq (Except ε α) := fun x y =>
  match x, y with
  | .ok a, .ok b =>
    if h : a = b then .isTrue (by rw [h]) else .isFalse (by simp [h])
  | .error a, .error b =>
    if h : a = b then .isTrue (by rw [h]) else .isFalse (by simp [h])
  | .ok _, .error _ => .isFalse (by simp)
  | .error _, .ok _ => .isFalse (by simp)

/-- A token in the evaluator: a tokenizer-produced string, or a computed value
(the source stringifies the value; `f32` `Display`/`parse` round trips). -/
abbrev EvalTok := String ⊕ F32

/-- Variable table `$n ↦ value`; models `HashMap<String, f32>`. -/
abbrev VarMap := List (String × F32)

/-- `is_operator_or_bracket` (`parser.rs` 246–251). -/
def is_operator_or_bracket : Option String → Bool
  | some t => t = "+" || t = "-" || t = "*" || t = "/" || t = "("
  | none => true

/-- Consume a maximal run of ascii digits (the `while let Some(&digit_ch) =
chars.peek()` loops of `tokenize`). -/
def takeDigits : List Char → String → String × List Char
  | c :: cs, acc => if c.isDigit then takeDigits cs (acc.push c) else (acc, c :: cs)
  | [], acc => (acc, [])

/-- Consume a maximal run of ascii digits and dots (the number-after-sign loop
of `tokenize`). -/
def takeNumChars : List Char → String → String × List Char
  | c :: cs, acc =>
    if c.isDigit || c = '.' then takeNumChars cs (acc.push c) else (acc, c :: cs)
  | [], acc => (acc, [])

theorem takeDigits_length_le : ∀ (cs : List Char) (acc : String),
    (takeDigits cs acc).2.length ≤ cs.length := by
  intro cs
  induction cs with
  | nil => intro acc; simp [takeDigits]
  | cons c cs ih =>
    intro acc
    simp only [takeDigits]
    by_cases h : c.isDigit
    · simp only [h, if_true]
      exact Nat.le_succ_of_le (ih (acc.push c))
    · simp [h]

theorem takeNumChars_length_le : ∀ (cs : List Char) (acc : String),
    (takeNumChars cs acc).2.length ≤ cs.length := by
  intro cs
  induction cs with
  | nil => intro acc; simp [takeNumChars]
  | cons c cs ih =>
    intro acc
    simp only [takeNumChars]
    by_cases h : c.isDigit || c = '.'
    · simp only [h, if_true]
      exact Nat.le_succ_of_le (ih (acc.push c))
    · simp [h]

/-- Flush the in-progress token (`if !current_token.is_empty() { tokens.push(…) }`). -/
def pushTok (tokens : List String) (current : String) : List String :=
  if strEmpty current then tokens else tokens ++ [current]

/-- The character loop of `tokenize` (`parser.rs` 145–243), transcribed case by
case; `tokens` and `current` are the accumulators `tokens` / `current_token`. -/
def tokenize_aux : ℕ → List Char → List String → String → Except String (List String)
  | _, [], tokens, current => .ok (pushTok tokens current)
  | 0, _ :: _, tokens, current =>
    -- fuel exhaustion: unreachable, `tokenize` supplies `length + 1` fuel and
    -- every step consumes at least one character
    .ok (pushTok tokens current)
  | fuel + 1, ch :: rest, tokens, current =>
    if isAsciiWhitespace ch then
      tokenize_aux fuel rest (pushTok tokens current) ""
    else if (ch = '-' || ch = '+') && (tokens.isEmpty || is_operator_or_bracket tokens.getLast?) then
      -- sign handling: the sign is first appended to `current_token`
      let cur1 := current.push ch
      match rest with
      | '$' :: rest2 =>
        -- `-$1`: push the sign token, then read the `$`-variable
        let d := takeDigits rest2 ""
        tokenize_aux fuel d.2 (tokens ++ [cur1, ("$") ++ d.1]) ""
      | c :: cs2 =>
        if c.isDigit || c = '.' then
          -- signed number: read digits/dots into the same token
          let d := takeNumChars (c :: cs2) ""
          tokenize_aux fuel d.2 (tokens ++ [cur1 ++ d.1]) ""
        else
          -- lone sign before a non-value: push it, then push the char again
          -- as an operator token (transcribed quirk of the source)
          tokenize_aux fuel (c :: cs2) (tokens ++ [cur1, ch.toString]) ""
      | [] =>
        -- `chars.peek()` is `None`: the sign stays in `current_token`
        tokenize_aux fuel [] tokens cur1
    else if ch = '$' then
      let d := takeDigits rest ""
      tokenize_aux fuel d.2 (pushTok tokens current ++ [("$") ++ d.1]) ""
    else if ch.isDigit || ch = '.' then
      tokenize_aux fuel rest tokens (current.push ch)
    else if ch = '+' || ch = '-' || ch = '*' || ch = '/' || ch = '(' || ch = ')' then
      tokenize_aux fuel rest (pushTok tokens current ++ [ch.toString]) ""
    else
      .error (("Invalid character: ") ++ ch.toString)

/-- `tokenize` (`parser.rs` 145–243).  The fuel `length + 1` makes the
recursion structural (every step of the source loop consumes at least one
character, so the fuel is never exhausted). -/
def tokenize (expr : String) : Except String (List String) :=
  tokenize_aux (expr.toList.length + 1) expr.toList [] ""

/-- `token_to_value` (`parser.rs` 254–267). -/
def token_to_value (token : EvalTok) (vars : VarMap) : Except String F32 :=
  match token with
  | .inr v => .ok v
  | .inl t =>
    if strStartsWith t ("$") then
      match vars.lookup t with
      | some v => .ok v
      | none => .error (("Undefined variable: ") ++ t)
    else
      match parseF32 t with
      | some v => .ok v
      | none => .error (("Invalid number: ") ++ t)

/-- `apply_multiplication_division` (`parser.rs` 270–301).  The source walks an
index `i` over `tokens`, folding the triple at `i` when `tokens[i+1]` is `*` or
`/` and `i + 2 < tokens.len()`, then jumping to `i + 3`; a computed value is
pushed to the output and never reconsidered.  This is exactly the structural
recursion below. -/
def apply_multiplication_division (vars : VarMap) :
    List EvalTok → Except String (List EvalTok)
  | t1 :: op :: t2 :: rest =>
    if op = .inl ("*") || op = .inl ("/") then do
      let left ← token_to_value t1 vars
      let right ← token_to_value t2 vars
      let value ←
        if op = .inl ("*") then Except.ok (left * right)
        else if right = 0 then Except.error ("Division by zero")
        else Except.ok (left / right)
      let tail ← apply_multiplication_division vars rest
      .ok (.inr value :: tail)
    else do
      let tail ← apply_multiplication_division vars (op :: t2 :: rest)
      .ok (t1 :: tail)
  | t :: rest => do
      -- fewer than three tokens remain (`i + 2 < tokens.len()` fails):
      -- tokens are copied through unchanged
      let tail ← apply_multiplication_division vars rest
      .ok (t :: tail)
  | [] => .ok []

/-- Rendering of a token in the "Unexpected operator" message.  For a computed
value the source would print the `f32`; no theorem below inspects that case. -/
def tokStr : EvalTok → String
  | .inl s => s
  | .inr v => toString v

/-- The `while i < tokens.len()` loop of `apply_addition_subtraction`
(`parser.rs` 329–346): note a single trailing token is silently dropped
(`break` when `i + 1 = len`). -/
def addsub_loop (vars : VarMap) (acc : F32) : List EvalTok → Except String F32
  | op :: right :: rest => do
      let r ← token_to_value right vars
      if op = .inl ("+") then addsub_loop vars (acc + r) rest
      else if op = .inl ("-") then addsub_loop vars (acc - r) rest
      else .error (("Unexpected operator: ") ++ tokStr op)
  | _ => .ok acc

/-- `apply_addition_subtraction` (`parser.rs` 304–349). -/
def apply_addition_subtraction (tokens : List EvalTok) (vars : VarMap) :
    Except String F32 :=
  match tokens with
  | [] => .error ("No tokens to process")
  | t0 :: rest =>
    if t0 = .inl ("-") || t0 = .inl ("+") then
      let sign : F32 := if t0 = .inl ("-") then -1 else 1
      match rest with
      | [] => .error ("Operator without operand")
      | t1 :: rest2 => do
          let v ← token_to_value t1 vars
          addsub_loop vars (sign * v) rest2
    else do
      let v ← token_to_value t0 vars
      addsub_loop vars v rest

/-- `calculate_simple_expression` (`parser.rs` 120–142). -/
def calculate_simple_expression (expr : String) (vars : VarMap) :
    Except String F32 :=
  let expr := rustTrim expr
  if strEmpty expr then .error ("Empty expression")
  else do
    let tokens ← tokenize expr
    if tokens.isEmpty then .error ("No tokens")
    else do
      let tokens2 ← apply_multiplication_division vars (tokens.map .inl)
      apply_addition_subtraction tokens2 vars

/-- `evaluate_expression` (`parser.rs` 107–115): `X` means multiply. -/
def evaluate_expression (expr : String) (vars : VarMap) : Except String F32 :=
  calculate_simple_expression (replaceChar (rustTrim expr) ('X') ('*')) vars

/-! ## Geometry primitives and external libraries (`parser.rs` 16–103, 351–431) -/

/-- A 2-D point, modelling `[f32; 2]`. -/
abbrev Vec2 := F32 × F32

/-- An iOverlay shape: a list of contours (outer boundary first, then holes). -/
abbrev Shape := List (List Vec2)

/-- The iOverlay boolean operation selector. -/
inductive OverlayRule where
  | union
  | difference
  deriving DecidableEq

/-- The external libraries and `f32` transcendental functions the source calls
out to: `i_triangle` triangulation, `i_overlay` polygon booleans, and `sqrt` /
`sin` / `cos` / `atan2` / the `f32` π constant.  The spec treats the polygon
libraries as black boxes; the parser theorems below hold for every value of
this record. -/
structure Externals where
  /-- `f32::sqrt` -/
  sqrt : F32 → F32
  /-- `f32::cos` -/
  cos : F32 → F32
  /-- `f32::sin` -/
  sin : F32 → F32
  /-- `f32::atan2` (`self = y`, argument `x`) -/
  atan2 : F32 → F32 → F32
  /-- `std::f32::consts::PI` (an exact rational in IEEE `f32`) -/
  pi : F32
  /-- `i_triangle`: triangulate the given paths (outer boundary + holes) into
  a point table and an index list (`to_triangulation::<u32>()`). -/
  triangulate : List (List Vec2) → List Vec2 × List ℕ
  /-- `i_overlay` `overlay` with `FillRule::NonZero`. -/
  overlay : List Shape → List Shape → OverlayRule → List Shape

/-- A trivial instantiation of the externals, used for closed (witness /
counterexample) statements whose computation never reaches an external call. -/
def defaultExternals : Externals where
  sqrt := fun _ => 0
  cos := fun _ => 0
  sin := fun _ => 0
  atan2 := fun _ _ => 0
  pi := 0
  triangulate := fun _ => ([], [])
  overlay := fun _ _ _ => []

/-- `Primitive` (`parser.rs` 18–47). -/
inductive Primitive where
  | triangle (vertices : List Vec2) (exposure : F32)
  | circle (x y radius exposure : F32)
  | arc (x y radius start_angle end_angle thickness exposure : F32)
  | thermal (x y outer_diameter inner_diameter gap_thickness rotation exposure : F32)
  deriving DecidableEq

/-- `rotate_point` (`parser.rs` 96–103). -/
def rotate_point (E : Externals) (point : Vec2) (angle center_x center_y : F32) : Vec2 :=
  let cos_a := E.cos angle
  let sin_a := E.sin angle
  let x := point.1 - center_x
  let y := point.2 - center_y
  (center_x + x * cos_a - y * sin_a, center_y + x * sin_a + y * cos_a)

/-- The exposure field of a primitive (the repeated `match` used throughout the
source to read `exposure`). -/
def Primitive.exposure : Primitive → F32
  | .triangle _ e => e
  | .circle _ _ _ e => e
  | .arc _ _ _ _ _ _ e => e
  | .thermal _ _ _ _ _ _ e => e

/-- Assembly of `Primitive::Triangle`s from an `i_triangle` result (the
`for i in (0..indices.len()).step_by(3)` loops of `triangulate_outline` and
`triangulate_shape_with_holes`, including their bounds checks). -/
def trianglesFromIndices (points : List Vec2) (exposure : F32) :
    List ℕ → List Primitive
  | i0 :: i1 :: i2 :: rest =>
    (match points.get? i0, points.get? i1, points.get? i2 with
     | some p0, some p1, some p2 => [Primitive.triangle [p0, p1, p2] exposure]
     | _, _, _ => []) ++ trianglesFromIndices points exposure rest
  | _ => []

/-- `triangulate_outline` (`parser.rs` 352–389). -/
def triangulate_outline (E : Externals) (vertices : List Vec2) (exposure : F32) :
    Except String (List Primitive) :=
  if vertices.length < 3 then .error ("Not enough vertices")
  else
    let t := E.triangulate [vertices]
    .ok (trianglesFromIndices t.1 exposure t.2)

/-- `triangulate_shape_with_holes` (`parser.rs` 936–988). -/
def triangulate_shape_with_holes (E : Externals) (contours : List (List Vec2))
    (exposure : F32) : Except String (List Primitive) :=
  match contours with
  | [] => .ok []
  | outer :: holes =>
    if outer.length < 3 then .error ("Outer boundary has less than 3 vertices")
    else
      let t := E.triangulate (outer :: holes)
      .ok (trianglesFromIndices t.1 exposure t.2)

/-- `line_to_triangles` (`parser.rs` 392–431). -/
def line_to_triangles (E : Externals) (start_x start_y end_x end_y width exposure : F32) :
    List Primitive :=
  let dx := end_x - start_x
  let dy := end_y - start_y
  let len := E.sqrt (dx * dx + dy * dy)
  if len = 0 then []
  else
    let half_width := width / 2
    let perp_x := -dy / len * half_width
    let perp_y := dx / len * half_width
    let v1 : Vec2 := (start_x + perp_x, start_y + perp_y)
    let v2 : Vec2 := (start_x - perp_x, start_y - perp_y)
    let v3 : Vec2 := (end_x + perp_x, end_y + perp_y)
    let v4 : Vec2 := (end_x - perp_x, end_y - perp_y)
    [Primitive.triangle [v1, v2, v3] exposure, Primitive.triangle [v2, v4, v3] exposure]

/-- The 36-gon circle approximation used by `primitive_to_polygon`. -/
def circlePolygon (E : Externals) (x y radius : F32) : List Vec2 :=
  (List.range 36).map fun i =>
    let angle := (i : F32) * (2 * E.pi / 36)
    (x + radius * E.cos angle, y + radius * E.sin angle)

/-- Truncating `as usize` cast of an `f32` (saturates at 0 for negatives). -/
def F32.toUsize (x : F32) : ℕ :=
  if x.n < 0 || x.d = 0 then 0 else (x.n / (x.d : ℤ)).toNat

/-- `f32::ceil`. -/
def F32.fceil (x : F32) : F32 :=
  if x.d = 0 then x else ⟨Int.ediv (x.n + x.d - 1) x.d, 1⟩

/-- `f32::to_radians` (multiplication by π/180). -/
def toRadians (E : Externals) (x : F32) : F32 := x * (E.pi / 180)

/-- `primitive_to_polygon` (`parser.rs` 693–761). -/
def primitive_to_polygon (E : Externals) : Primitive → List Vec2
  | .circle x y radius _ => circlePolygon E x y radius
  | .triangle vertices _ => vertices
  | .arc x y radius start_angle end_angle _ _ =>
    -- note: the source converts the stored angles with `to_radians` here
    let start_rad := toRadians E start_angle
    let end_rad := toRadians E end_angle
    let sweep0 := end_rad - start_rad
    let sweep := if sweep0 < 0 then sweep0 + 2 * E.pi else sweep0
    let segment_angle := toRadians E 10
    let num_segments := (F32.fceil (sweep / segment_angle)).toUsize
    (List.range (num_segments + 1)).map fun i =>
      let t := (i : F32) / (num_segments : F32)
      let angle := start_rad + sweep * t
      (x + radius * E.cos angle, y + radius * E.sin angle)
  | .thermal x y outer_diameter _ _ _ _ =>
    circlePolygon E x y (outer_diameter / 2)

/-- The boolean-operation loop of `apply_boolean_operations_v2` (`parser.rs`
881–904); `none` models the early `return Vec::new()` when the accumulator
becomes empty. -/
def boolOpsLoop (E : Externals) (first_idx : ℕ) :
    List (ℕ × Shape × F32) → List Shape → Option (List Shape)
  | [], acc => some acc
  | (i, shape, exposure) :: rest, acc =>
    if i = first_idx then boolOpsLoop E first_idx rest acc
    else
      let acc2 :=
        if (0.5 : F32) < exposure then E.overlay acc [shape] OverlayRule.union
        else E.overlay acc [shape] OverlayRule.difference
      if acc2.isEmpty then none else boolOpsLoop E first_idx rest acc2

/-- `apply_boolean_operations_v2` (`parser.rs` 864–931). -/
def apply_boolean_operations_v2 (E : Externals) (shapes : List (Shape × F32)) :
    List Primitive :=
  match shapes.findIdx? (fun p => (0.5 : F32) < p.2) with
  | none => []
  | some first_idx =>
    match shapes.get? first_idx with
    | none => []
    | some first =>
      match boolOpsLoop E first_idx (shapes.enum.map fun p => (p.1, p.2.1, p.2.2))
          [first.1] with
      | none => []
      | some result_shapes =>
        result_shapes.foldl (fun all shape =>
          if shape.isEmpty then all
          else
            match triangulate_shape_with_holes E shape 1 with
            | .ok prims => all ++ prims
            | .error _ => all) []

/-- `offset_primitive_by` (`parser.rs` 991–1043). -/
def offset_primitive_by (primitive : Primitive) (dx dy : F32) : Primitive :=
  match primitive with
  | .circle x y radius exposure => .circle (x + dx) (y + dy) radius exposure
  | .triangle vertices exposure =>
    .triangle (vertices.map fun v => (v.1 + dx, v.2 + dy)) exposure
  | .arc x y radius start_angle end_angle thickness exposure =>
    .arc (x + dx) (y + dy) radius start_angle end_angle thickness exposure
  | .thermal x y od id_ gt rot exposure =>
    .thermal (x + dx) (y + dy) od id_ gt rot exposure

/-! ## Aperture macros (`parser.rs` 1045–1388, 2435–2490) -/

/-- Model of `str::trim_end_matches(c)` (removes every trailing `c`). -/
def trimEndChar (s : String) (c : Char) : String :=
  ⟨(s.toList.reverse.dropWhile fun x => x = c).reverse⟩

/-- Model of `str::trim_start_matches(c)`. -/
def trimStartChar (s : String) (c : Char) : String :=
  ⟨s.toList.dropWhile fun x => x = c⟩

/-- Model of `str::trim_start_matches(p)` for a string pattern (removes the
prefix repeatedly); fuel-structural on the string length. -/
def trimStartStrAux : ℕ → List Char → List Char → List Char
  | 0, s, _ => s
  | fuel + 1, s, p =>
    if p.isEmpty then s
    else if listStartsWith s p then trimStartStrAux fuel (s.drop p.length) p
    else s

def trimStartStr (s p : String) : String :=
  ⟨trimStartStrAux (s.toList.length + 1) s.toList p.toList⟩

def strContainsChar (s : String) (c : Char) : Bool := s.toList.contains c

def strFindChar (s : String) (c : Char) : Option ℕ := s.toList.findIdx? (fun x => x = c)

def strTake (s : String) (n : ℕ) : String := ⟨s.toList.take n⟩

def strDrop (s : String) (n : ℕ) : String := ⟨s.toList.drop n⟩

/-- Split a string on a character (Rust `str::split(c)`, keeping empties). -/
def splitStr (s : String) (c : Char) : List String :=
  (splitOnChar c s.toList).map fun cs => ⟨cs⟩

/-- Rotation of a `Primitive::Triangle`'s vertices about a pivot, as done
inline by `parse_primitive_statement` (`if rotation != 0.0 { … }`). -/
def rotateTriangleIf (E : Externals) (rotation cx cy : F32) (p : Primitive) : Primitive :=
  if rotation = 0 then p
  else
    match p with
    | .triangle vertices e => .triangle (vertices.map fun v => rotate_point E v rotation cx cy) e
    | other => other

/-- The vertex-collection loop of `parse_primitive_statement`'s outline branch
(`parser.rs` 1099–1110): any out-of-range index aborts the whole statement. -/
def outlineVerts (parts : List String) (vars : VarMap) (n : ℕ) : Option (List Vec2) :=
  (List.range n).foldl (fun acc i => do
    let vs ← acc
    let xs ← parts.get? (3 + i * 2)
    let ys ← parts.get? (3 + i * 2 + 1)
    let x ← (evaluate_expression xs vars).toOption
    let y ← (evaluate_expression ys vars).toOption
    pure (vs ++ [((x, y) : Vec2)])) (some [])

/-- `parse_primitive_statement` (`parser.rs` 1046–1309).  The source appends to
a `&mut Vec<Primitive>` and returns `Option<u32>`; every failing path returns
before appending anything, so the model returns the appended list (`none` =
statement cancelled, nothing appended).  The returned primitive code is
ignored by the only caller and is dropped here. -/
def parse_primitive_statement (E : Externals) (stmt : String) (vars : VarMap) :
    Option (List Primitive) :=
  let stmt := trimEndChar stmt '*'
  let parts := splitStr stmt ','
  match parts with
  | [] => none
  | code :: _ =>
    match parseU32 code with
    | none => none
    | some 0 => some []
    | some 1 =>
      -- Circle: 1,exposure,diameter,centerX,centerY[,rotation]
      match parts with
      | _ :: p1 :: p2 :: p3 :: p4 :: _ => do
        let exposure ← (evaluate_expression p1 vars).toOption
        let diameter ← (evaluate_expression p2 vars).toOption
        let center_x ← (evaluate_expression p3 vars).toOption
        let center_y ← (evaluate_expression p4 vars).toOption
        pure [Primitive.circle center_x center_y (diameter / 2) exposure]
      | _ => none
    | some 4 =>
      -- Outline: 4,exposure,vertices,x1,y1,…[,rotation]
      match parts with
      | _ :: p1 :: p2 :: _ :: _ => do
        let exposure ← (evaluate_expression p1 vars).toOption
        let nv ← (evaluate_expression p2 vars).toOption
        let num_vertices := nv.toUsize
        let rotation ←
          if parts.length > 3 + num_vertices * 2 then do
            let rs ← parts.get? (3 + num_vertices * 2)
            let r ← (evaluate_expression rs vars).toOption
            pure (toRadians E r)
          else pure (0 : F32)
        let vertices ← outlineVerts parts vars num_vertices
        if vertices.length ≥ 3 then
          match triangulate_outline E vertices exposure with
          | .ok triangles => pure (triangles.map (rotateTriangleIf E rotation 0 0))
          | .error _ => none
        else none
      | _ => none
    | some 5 =>
      -- Polygon: 5,exposure,vertices,centerX,centerY,diameter[,rotation]
      match parts with
      | _ :: p1 :: p2 :: p3 :: p4 :: p5 :: rest => do
        let exposure ← (evaluate_expression p1 vars).toOption
        let nv ← (evaluate_expression p2 vars).toOption
        let num_vertices := nv.toUsize
        let center_x ← (evaluate_expression p3 vars).toOption
        let center_y ← (evaluate_expression p4 vars).toOption
        let diameter ← (evaluate_expression p5 vars).toOption
        let rotation ←
          match rest with
          | r :: _ => do
            let v ← (evaluate_expression r vars).toOption
            pure (toRadians E v)
          | [] => pure (0 : F32)
        let radius := diameter / 2
        let angle_step := 2 * E.pi / (num_vertices : F32)
        let vertices := (List.range num_vertices).map fun i =>
          let angle := angle_step * (i : F32)
          ((center_x + radius * E.cos angle, center_y + radius * E.sin angle) : Vec2)
        pure <| (List.range num_vertices).map fun i =>
          let next_i := (i + 1) % num_vertices
          rotateTriangleIf E rotation 0 0
            (Primitive.triangle [(center_x, center_y),
              vertices.getD i (0, 0), vertices.getD next_i (0, 0)] exposure)
      | _ => none
    | some 7 =>
      -- Thermal: 7,centerX,centerY,outerDiameter,innerDiameter,gapThickness[,rotation]
      match parts with
      | _ :: p1 :: p2 :: p3 :: p4 :: p5 :: rest => do
        let center_x ← (evaluate_expression p1 vars).toOption
        let center_y ← (evaluate_expression p2 vars).toOption
        let outer_diameter ← (evaluate_expression p3 vars).toOption
        let inner_diameter ← (evaluate_expression p4 vars).toOption
        let gap_thickness ← (evaluate_expression p5 vars).toOption
        let rotation ←
          match rest with
          | r :: _ => do
            let v ← (evaluate_expression r vars).toOption
            pure (toRadians E v)
          | [] => pure (0 : F32)
        pure [Primitive.thermal center_x center_y outer_diameter inner_diameter
          gap_thickness rotation 1]
      | _ => none
    | some 20 =>
      -- Vector line: 20,exposure,width,startX,startY,endX,endY[,rotation]
      match parts with
      | _ :: p1 :: p2 :: p3 :: p4 :: p5 :: p6 :: rest => do
        let exposure ← (evaluate_expression p1 vars).toOption
        let width ← (evaluate_expression p2 vars).toOption
        let start_x ← (evaluate_expression p3 vars).toOption
        let start_y ← (evaluate_expression p4 vars).toOption
        let end_x ← (evaluate_expression p5 vars).toOption
        let end_y ← (evaluate_expression p6 vars).toOption
        let rotation ←
          match rest with
          | r :: _ => do
            let v ← (evaluate_expression r vars).toOption
            pure (toRadians E v)
          | [] => pure (0 : F32)
        let triangles := line_to_triangles E start_x start_y end_x end_y width exposure
        pure (triangles.map (rotateTriangleIf E rotation 0 0))
      | _ => none
    | some 21 =>
      -- Center line: 21,exposure,width,height,centerX,centerY[,rotation]
      -- (note: this branch does not convert the rotation to radians)
      match parts with
      | _ :: p1 :: p2 :: p3 :: p4 :: p5 :: rest => do
        let exposure ← (evaluate_expression p1 vars).toOption
        let width ← (evaluate_expression p2 vars).toOption
        let height ← (evaluate_expression p3 vars).toOption
        let center_x ← (evaluate_expression p4 vars).toOption
        let center_y ← (evaluate_expression p5 vars).toOption
        let rotation ←
          match rest with
          | r :: _ => (evaluate_expression r vars).toOption
          | [] => pure (0 : F32)
        let half_width := width / 2
        let half_height := height / 2
        let v1 : Vec2 := (center_x - half_width, center_y - half_height)
        let v2 : Vec2 := (center_x + half_width, center_y - half_height)
        let v3 : Vec2 := (center_x + half_width, center_y + half_height)
        let v4 : Vec2 := (center_x - half_width, center_y + half_height)
        pure [rotateTriangleIf E rotation center_x center_y
                (Primitive.triangle [v1, v2, v3] exposure),
              rotateTriangleIf E rotation center_x center_y
                (Primitive.triangle [v1, v3, v4] exposure)]
      | _ => none
    | some _ => none

/-- `ApertureMacro` (`parser.rs` 1335–1348). -/
structure ApertureMacro where
  name : String
  statements : List String
  has_negative : Bool
  deriving DecidableEq

/-- Insert into a variable table (`HashMap::insert`: later bindings shadow). -/
def insertVar (m : VarMap) (k : String) (v : F32) : VarMap := (k, v) :: m

/-- One statement step of `ApertureMacro::instantiate` (`parser.rs` 1360–1385). -/
def instantiateStep (E : Externals) (st : VarMap × List Primitive) (statement : String) :
    VarMap × List Primitive :=
  let stmt := rustTrim statement
  if strEmpty stmt then st
  else if strStartsWith stmt ("0 ") || stmt = "0" then st
  else if strStartsWith stmt ("$") && strContainsChar stmt '=' then
    match strFindChar stmt '=' with
    | some eq_idx =>
      let var_name := rustTrim (strTake stmt eq_idx)
      let expr := rustTrim (strDrop stmt (eq_idx + 1))
      match evaluate_expression expr st.1 with
      | .ok value => (insertVar st.1 var_name value, st.2)
      | .error _ => st
    | none => st
  else
    (st.1, st.2 ++ (parse_primitive_statement E stmt st.1).getD [])

/-- The parameter-initialization loop of `ApertureMacro::instantiate`
(`parser.rs` 1356–1358): `$1 ↦ p₁, …, $n ↦ pₙ`. -/
def macroInitVars (params : List F32) : VarMap :=
  params.enum.foldl (fun acc p => insertVar acc (("$") ++ toString (p.1 + 1)) p.2) []

/-- `ApertureMacro::instantiate` (`parser.rs` 1351–1388). -/
def ApertureMacro.instantiate (E : Externals) (m : ApertureMacro) (params : List F32) :
    List Primitive :=
  (m.statements.foldl (instantiateStep E) (macroInitVars params, [])).2

/-- `check_macro_has_negative` (`parser.rs` 2467–2490). -/
def check_macro_has_negative (statements : List String) : Bool :=
  statements.any fun stmt =>
    let trimmed := rustTrim stmt
    if strEmpty trimmed || strStartsWith trimmed ("0 ") || trimmed = "0" then false
    else if strStartsWith trimmed ("$") && strContainsChar trimmed '=' then false
    else
      match splitStr trimmed ',' with
      | _ :: p1 :: _ =>
        let exposure_str := rustTrim p1
        exposure_str = "0" || exposure_str = "0.0"
      | _ => false

/-- `parse_macro` (`parser.rs` 2435–2464). -/
def parse_macro (data : String) (macros : List (String × ApertureMacro)) :
    List (String × ApertureMacro) :=
  let content := trimEndChar (trimStartStr data ("%AM")) '%'
  match splitStr content '*' with
  | [] => macros
  | name :: rest =>
    let statements := (rest.map rustTrim).filter fun stmt => !strEmpty stmt
    let m : ApertureMacro :=
      { name := name, statements := statements,
        has_negative := check_macro_has_negative statements }
    (name, m) :: macros

/-! ## Parser state (`parser.rs` 1560–1646) -/

/-- `Polarity` (`parser.rs` 10–14). -/
inductive Polarity where
  | positive
  | negative
  deriving DecidableEq

/-- `FormatSpec` (`parser.rs` 1616–1646); the divisors are cached `f64`
values, exact rationals here. -/
structure FormatSpec where
  x_integer_digits : ℕ
  x_decimal_digits : ℕ
  y_integer_digits : ℕ
  y_decimal_digits : ℕ
  leading : ℕ
  trailing : ℕ
  x_divisor : F32
  y_divisor : F32
  x_total_digits : ℤ
  y_total_digits : ℤ
  deriving DecidableEq

/-- `FormatSpec::default` (`parser.rs` 1631–1646). -/
def FormatSpec.default : FormatSpec :=
  { x_integer_digits := 2, x_decimal_digits := 4
    y_integer_digits := 2, y_decimal_digits := 4
    leading := 2, trailing := 4
    x_divisor := 10000, y_divisor := 10000
    x_total_digits := 6, y_total_digits := 6 }

/-- `ParserState` (`parser.rs` 1561–1586).  The source stores the modal flags
as strings; this is transcribed as-is. -/
structure ParserState where
  x : F32
  y : F32
  current_aperture : String
  interpolation_mode : String
  quadrant_mode : String
  region_mode : Bool
  coordinate_mode : String
  scale : F32
  unit_multiplier : F32
  i : F32
  j : F32
  previous_x : F32
  previous_y : F32
  pen_state : String
  polarity : Polarity
  format_spec : FormatSpec
  sr_x : ℕ
  sr_y : ℕ
  sr_i : F32
  sr_j : F32
  deriving DecidableEq

/-- `ParserState::default` (`parser.rs` 1588–1613). -/
def ParserState.default : ParserState :=
  { x := 0, y := 0, current_aperture := ""
    interpolation_mode := "linear", quadrant_mode := "single"
    region_mode := false, coordinate_mode := "absolute"
    scale := 1, unit_multiplier := 1, i := 0, j := 0
    previous_x := 0, previous_y := 0, pen_state := "up"
    polarity := .positive, format_spec := FormatSpec.default
    sr_x := 1, sr_y := 1, sr_i := 0, sr_j := 0 }

/-- `Aperture` (`parser.rs` 1312–1331). -/
structure Aperture where
  code : String
  shape : String
  radius : F32
  primitives : List Primitive
  has_negative : Bool
  deriving DecidableEq

/-- The aperture table; models `HashMap<String, Aperture>` (first-match
lookup with insert-at-front = `HashMap::insert` overwrite semantics). -/
abbrev ApertureMap := List (String × Aperture)

abbrev MacroMap := List (String × ApertureMacro)

/-! ## Graphic commands (`parser.rs` 2003–2431) -/

/-- The digit-scanning loop of `extract_value` (`parser.rs` 2232–2245),
including its sign-state quirks. -/
def extractLoop : List Char → String → Bool → String
  | [], value, _ => value
  | ch :: rest, value, has_minus =>
    if ch = '-' || ch = '+' then extractLoop rest value (ch = '-')
    else if ch.isDigit then
      let value2 := (if has_minus && strEmpty value then value.push '-' else value).push ch
      extractLoop rest value2 has_minus
    else value

/-- `extract_value` (`parser.rs` 2227–2255). -/
def extract_value (line : String) (key : Char) : Option String :=
  match strFindChar line key with
  | none => none
  | some pos =>
    let value := extractLoop (line.toList.drop (pos + 1)) ("") false
    if strEmpty value then none else some value

/-- `convert_coordinate` (`parser.rs` 2258–2276). -/
def convert_coordinate (coord_str : String) (axis : Char) (format_spec : FormatSpec)
    (unit_multiplier : F32) : F32 :=
  match parseI64 coord_str with
  | some val =>
    let divisor : F32 :=
      if axis = 'x' then format_spec.x_divisor
      else if axis = 'y' then format_spec.y_divisor
      else 10000
    ((val : F32) / divisor) * unit_multiplier
  | none => 0

/-- `flash_aperture` (`parser.rs` 2279–2351).  The direct-clone branch's
inline per-variant translation is exactly `offset_primitive_by`. -/
def flash_aperture (E : Externals) (state : ParserState) (apertures : ApertureMap)
    (primitives : List Primitive) (x y : F32) : List Primitive :=
  match apertures.lookup state.current_aperture with
  | none => primitives
  | some aperture =>
    (List.range state.sr_y).foldl (fun acc1 (sy : Nat) =>
      (List.range state.sr_x).foldl (fun acc2 (sx : Nat) =>
        let flash_x := x + (sx : F32) * state.sr_i
        let flash_y := y + (sy : F32) * state.sr_j
        if aperture.has_negative then
          let shapes_with_exposure : List (Shape × F32) := aperture.primitives.map fun p =>
            let offset_p := offset_primitive_by p flash_x flash_y
            ([primitive_to_polygon E offset_p], offset_p.exposure)
          acc2 ++ apply_boolean_operations_v2 E shapes_with_exposure
        else
          acc2 ++ aperture.primitives.map fun p => offset_primitive_by p flash_x flash_y)
        acc1)
      primitives

/-- `execute_interpolation` (`parser.rs` 2354–2431).  The source takes `state`
by `&mut` but never writes it, so the model returns only the primitive list. -/
def execute_interpolation (E : Externals) (state : ParserState) (apertures : ApertureMap)
    (primitives : List Primitive) (end_x end_y i j : F32) : List Primitive :=
  let start_x := state.x
  let start_y := state.y
  match apertures.lookup state.current_aperture with
  | none => primitives
  | some _aperture =>
    if state.interpolation_mode = "linear" || state.interpolation_mode = "linear_x10" ||
        state.interpolation_mode = "linear_x01" || state.interpolation_mode = "linear_x001" then
      let p1 := flash_aperture E state apertures primitives start_x start_y
      let p2 :=
        match apertures.lookup state.current_aperture with
        | some aperture =>
          let diameter := aperture.radius * 2
          p1 ++ line_to_triangles E start_x start_y end_x end_y diameter 1
        | none => p1
      flash_aperture E state apertures p2 end_x end_y
    else if state.interpolation_mode = "clockwise" ||
        state.interpolation_mode = "counterclockwise" then
      let p1 := flash_aperture E state apertures primitives start_x start_y
      let p2 :=
        match apertures.lookup state.current_aperture with
        | some aperture =>
          let center_x := start_x + i
          let center_y := start_y + j
          let radius := E.sqrt ((start_x - center_x) * (start_x - center_x) +
            (start_y - center_y) * (start_y - center_y))
          let start_angle := E.atan2 (start_y - center_y) (start_x - center_x)
          let end_angle := E.atan2 (end_y - center_y) (end_x - center_x)
          let thickness := aperture.radius * 2
          let sweep0 := end_angle - start_angle
          let is_clockwise := state.interpolation_mode = "clockwise"
          -- direction normalization; note: no quadrant-mode clamp appears here
          let sweep_angle :=
            if is_clockwise && 0 < sweep0 then sweep0 - 2 * E.pi
            else if !is_clockwise && sweep0 < 0 then sweep0 + 2 * E.pi
            else sweep0
          p1 ++ [Primitive.arc center_x center_y radius start_angle
            (start_angle + sweep_angle) thickness 1]
        | none => p1
      flash_aperture E state apertures p2 end_x end_y
    else primitives

/-- Append a point to the last region contour (`region_contours.last_mut()`). -/
def appendToLast (contours : List (List Vec2)) (pt : Vec2) : List (List Vec2) :=
  match contours with
  | [] => []
  | [c] => [c ++ [pt]]
  | c :: rest => c :: appendToLast rest pt

def lastContourNonEmpty (contours : List (List Vec2)) : Bool :=
  match contours.getLast? with
  | some c => !c.isEmpty
  | none => false

/-- The G-code `match` of `parse_graphic_command` (`parser.rs` 2015–2102). -/
def applyGCode (E : Externals) (g : ℕ) (state : ParserState)
    (primitives : List Primitive) (region_contours : List (List Vec2)) :
    ParserState × List Primitive × List (List Vec2) :=
  if g = 1 then ({ state with interpolation_mode := "linear", scale := 1 },
    primitives, region_contours)
  else if g = 2 then ({ state with interpolation_mode := "clockwise" },
    primitives, region_contours)
  else if g = 3 then ({ state with interpolation_mode := "counterclockwise" },
    primitives, region_contours)
  else if g = 10 then ({ state with interpolation_mode := "linear_x10", scale := 10 },
    primitives, region_contours)
  else if g = 11 then ({ state with interpolation_mode := "linear_x01", scale := 0.1 },
    primitives, region_contours)
  else if g = 12 then ({ state with interpolation_mode := "linear_x001", scale := 0.01 },
    primitives, region_contours)
  else if g = 36 then ({ state with region_mode := true }, primitives, [[]])
  else if g = 37 then
    let primitives2 := region_contours.foldl (fun acc contour =>
      if 3 ≤ contour.length then
        match triangulate_outline E contour 1 with
        | .ok triangles => acc ++ triangles
        | .error _ => acc
      else acc) primitives
    ({ state with region_mode := false }, primitives2, [])
  else if g = 70 then ({ state with unit_multiplier := 25.4 }, primitives, region_contours)
  else if g = 71 then ({ state with unit_multiplier := 1 }, primitives, region_contours)
  else if g = 74 then ({ state with quadrant_mode := "single" }, primitives, region_contours)
  else if g = 75 then ({ state with quadrant_mode := "multi" }, primitives, region_contours)
  else if g = 90 then ({ state with coordinate_mode := "absolute" }, primitives, region_contours)
  else if g = 91 then ({ state with coordinate_mode := "incremental" }, primitives, region_contours)
  else (state, primitives, region_contours)

/-- The target X coordinate computed by `parse_graphic_command`
(`parser.rs` 2111–2125): the commanded coordinate, or the current one. -/
def targetX (state : ParserState) (x_match : Option String) : F32 :=
  match x_match with
  | some x_val =>
    let new_x := convert_coordinate x_val 'x' state.format_spec state.unit_multiplier *
      state.scale
    if state.coordinate_mode = "absolute" then new_x else state.x + new_x
  | none => state.x

/-- The target Y coordinate computed by `parse_graphic_command`
(`parser.rs` 2127–2136). -/
def targetY (state : ParserState) (y_match : Option String) : F32 :=
  match y_match with
  | some y_val =>
    let new_y := convert_coordinate y_val 'y' state.format_spec state.unit_multiplier *
      state.scale
    if state.coordinate_mode = "absolute" then new_y else state.y + new_y
  | none => state.y

/-- The arc-offset I value computed by `parse_graphic_command`
(`parser.rs` 2138–2147): made non-negative in single-quadrant mode. -/
def targetI (state : ParserState) (i_match : Option String) : F32 :=
  match i_match with
  | some i_val =>
    let raw_i := convert_coordinate i_val 'x' state.format_spec state.unit_multiplier *
      state.scale
    if state.quadrant_mode = "single" then raw_i.abs else raw_i
  | none => 0

/-- The arc-offset J value computed by `parse_graphic_command`
(`parser.rs` 2149–2158). -/
def targetJ (state : ParserState) (j_match : Option String) : F32 :=
  match j_match with
  | some j_val =>
    let raw_j := convert_coordinate j_val 'y' state.format_spec state.unit_multiplier *
      state.scale
    if state.quadrant_mode = "single" then raw_j.abs else raw_j
  | none => 0

/-- `parse_graphic_command` (`parser.rs` 2005–2224).  Returns the updated
`(state, primitives, region_contours)`. -/
def parse_graphic_command (E : Externals) (line : String) (state : ParserState)
    (apertures : ApertureMap) (primitives : List Primitive)
    (region_contours : List (List Vec2)) :
    ParserState × List Primitive × List (List Vec2) :=
  let clean_line := trimEndChar line '*'
  let gRes :=
    match extract_value clean_line 'G' with
    | some g_match =>
      match parseU32 g_match with
      | some g_code => applyGCode E g_code state primitives region_contours
      | none => (state, primitives, region_contours)
    | none => (state, primitives, region_contours)
  let state := gRes.1
  let primitives := gRes.2.1
  let region_contours := gRes.2.2
  let x_match := extract_value clean_line 'X'
  let y_match := extract_value clean_line 'Y'
  let i_match := extract_value clean_line 'I'
  let j_match := extract_value clean_line 'J'
  let d_match := extract_value clean_line 'D'
  let x := targetX state x_match
  let y := targetY state y_match
  let i := targetI state i_match
  let j := targetJ state j_match
  let dRes : ParserState × List Primitive × List (List Vec2) :=
    match d_match with
    | some d_val =>
      match parseU32 d_val with
      | some d_code =>
        if d_code = 1 then
          let state2 := { state with pen_state := "down" }
          if state2.region_mode then
            if !region_contours.isEmpty then
              (state2, primitives, appendToLast region_contours (x, y))
            else (state2, primitives, region_contours)
          else
            (state2, execute_interpolation E state2 apertures primitives x y i j,
              region_contours)
        else if d_code = 2 then
          let state2 := { state with pen_state := "up" }
          if state2.region_mode && !region_contours.isEmpty then
            if lastContourNonEmpty region_contours then
              (state2, primitives, region_contours ++ [[]])
            else (state2, primitives, region_contours)
          else (state2, primitives, region_contours)
        else if d_code = 3 then
          if !state.region_mode then
            (state, flash_aperture E state apertures primitives x y, region_contours)
          else (state, primitives, region_contours)
        else if 10 ≤ d_code && d_code ≤ 9999 then
          ({ state with current_aperture := d_val }, primitives, region_contours)
        else (state, primitives, region_contours)
      | none => (state, primitives, region_contours)
    | none =>
      if (x_match.isSome || y_match.isSome) && state.pen_state = "down" then
        if state.region_mode then
          if !region_contours.isEmpty then
            (state, primitives, appendToLast region_contours (x, y))
          else (state, primitives, region_contours)
        else
          (state, execute_interpolation E state apertures primitives x y i j,
            region_contours)
      else (state, primitives, region_contours)
  ({ dRes.1 with x := x, y := y, i := i, j := j }, dRes.2.1, dRes.2.2)

/-! ## Aperture definitions (`parser.rs` 2492–2755) -/

/-- Split a character list at every character satisfying `p` (Rust
`str::split(|c| …)`, keeping empties). -/
def splitOnPred (p : Char → Bool) : List Char → List (List Char)
  | [] => [[]]
  | c :: cs =>
    if p c then [] :: splitOnPred p cs
    else
      match splitOnPred p cs with
      | [] => [[c]]
      | q :: qs => (c :: q) :: qs

def splitStrPred (s : String) (p : Char → Bool) : List String :=
  (splitOnPred p s.toList).map fun cs => ⟨cs⟩

/-- `f32::max`. -/
def F32.fmax (x y : F32) : F32 := if F32.blt x y then y else x

/-- `f32::min`. -/
def F32.fmin (x y : F32) : F32 := if F32.blt y x then y else x

/-- The `code_end` scan of `parse_aperture` (`parser.rs` 2508–2514): index of
the first non-digit character, `0` when every character is a digit. -/
def codeEndOf (cs : List Char) : ℕ :=
  match cs.findIdx? (fun c => !c.isDigit) with
  | some i => i
  | none => 0

/-- The macro-parameter collection loop of `parse_aperture`
(`parser.rs` 2715–2737). -/
def macroParams (parts : List String) (unit_multiplier : F32) : List F32 :=
  parts.foldl (fun acc part =>
    let param_str := rustTrim part
    if strEmpty param_str then acc
    else if strContainsChar param_str 'X' then
      acc ++ (splitStr param_str 'X').foldl (fun acc2 sub =>
        match parseF32 (rustTrim sub) with
        | some p => acc2 ++ [p * unit_multiplier]
        | none => acc2) []
    else
      match parseF32 param_str with
      | some p => acc ++ [p * unit_multiplier]
      | none => acc) []

/-- `parse_aperture` (`parser.rs` 2494–2755). -/
def parse_aperture (E : Externals) (data : String) (apertures : ApertureMap)
    (macros : MacroMap) (unit_multiplier : F32) : ApertureMap :=
  let content := trimEndChar (trimStartStr (trimStartChar data '%') ("ADD")) '%'
  let code_end := codeEndOf content.toList
  if code_end = 0 then apertures
  else
    let code := strTake content code_end
    let rest := strDrop content code_end
    let shape_and_params := splitStrPred rest (fun c => c = ',' || c = '*')
    match shape_and_params with
    | [] => apertures
    | shape0 :: params =>
      let shape := rustTrim shape0
      let base : Aperture :=
        { code := code, shape := shape, radius := 0, primitives := [], has_negative := false }
      let aperture : Aperture :=
        if shape = "C" then
          match params with
          | p1 :: _ =>
            (match parseF32 (rustTrim p1) with
             | some diameter =>
               let diameter_mm := diameter * unit_multiplier
               { base with
                  radius := diameter_mm / 2
                  primitives := [Primitive.circle 0 0 (diameter_mm / 2) 1] }
             | none => base)
          | [] => base
        else if shape = "R" then
          match params with
          | p1 :: _ =>
            (match splitStr p1 'X' with
             | w :: h :: _ =>
               (match parseF32 (rustTrim w), parseF32 (rustTrim h) with
                | some width, some height =>
                  let width_mm := width * unit_multiplier
                  let height_mm := height * unit_multiplier
                  let half_width := width_mm / 2
                  let half_height := height_mm / 2
                  let v1 : Vec2 := (-half_width, -half_height)
                  let v2 : Vec2 := (half_width, -half_height)
                  let v3 : Vec2 := (half_width, half_height)
                  let v4 : Vec2 := (-half_width, half_height)
                  { base with
                     radius := F32.fmax width_mm height_mm / 2
                     primitives := [Primitive.triangle [v1, v2, v3] 1,
                       Primitive.triangle [v1, v3, v4] 1] }
                | _, _ => base)
             | _ => base)
          | [] => base
        else if shape = "O" then
          match params with
          | p1 :: _ =>
            (match splitStr p1 'X' with
             | w :: h :: _ =>
               (match parseF32 (rustTrim w), parseF32 (rustTrim h) with
                | some width, some height =>
                  let width_mm := width * unit_multiplier
                  let height_mm := height * unit_multiplier
                  let short_side := F32.fmin width_mm height_mm
                  let long_side := F32.fmax width_mm height_mm
                  let radius := short_side / 2
                  if height_mm < width_mm then
                    let rect_width := long_side - short_side
                    let half_rect_width := rect_width / 2
                    let half_height := height_mm / 2
                    let x1 := -half_rect_width
                    let x2 := half_rect_width
                    let y1 := -half_height
                    let y2 := half_height
                    { base with
                       radius := radius
                       primitives :=
                         [Primitive.circle (-half_rect_width) 0 radius 1,
                          Primitive.circle half_rect_width 0 radius 1,
                          Primitive.triangle [(x1, y1), (x2, y1), (x1, y2)] 1,
                          Primitive.triangle [(x2, y1), (x2, y2), (x1, y2)] 1] }
                  else
                    let rect_height := long_side - short_side
                    let half_rect_height := rect_height / 2
                    let half_width := width_mm / 2
                    let x1 := -half_width
                    let x2 := half_width
                    let y1 := -half_rect_height
                    let y2 := half_rect_height
                    { base with
                       radius := radius
                       primitives :=
                         [Primitive.circle 0 (-half_rect_height) radius 1,
                          Primitive.circle 0 half_rect_height radius 1,
                          Primitive.triangle [(x1, y1), (x2, y1), (x1, y2)] 1,
                          Primitive.triangle [(x2, y1), (x2, y2), (x1, y2)] 1] }
                | _, _ => base)
             | _ => base)
          | [] => base
        else if shape = "P" then
          match params with
          | p1 :: _ =>
            (match splitStr p1 'X' with
             | d :: n :: _ =>
               (match parseF32 (rustTrim d), parseF32 (rustTrim n) with
                | some diameter, some num_vertices_f =>
                  let diameter_mm := diameter * unit_multiplier
                  let radius := diameter_mm / 2
                  let num_vertices := num_vertices_f.toUsize
                  let angle_step := 2 * E.pi / (num_vertices : F32)
                  { base with
                     radius := diameter_mm / 2
                     primitives := (List.range num_vertices).map fun i =>
                      let next_i := (i + 1) % num_vertices
                      let angle_i := angle_step * (i : F32)
                      let angle_next := angle_step * (next_i : F32)
                      Primitive.triangle [(0, 0),
                        (radius * E.cos angle_i, radius * E.sin angle_i),
                        (radius * E.cos angle_next, radius * E.sin angle_next)] 1 }
                | _, _ => base)
             | _ => base)
          | [] => base
        else
          match macros.lookup shape with
          | some macro_def =>
            { base with
               primitives := macro_def.instantiate E (macroParams params unit_multiplier)
               radius := 0 }
          | none => base
      let aperture :=
        { aperture with has_negative := aperture.primitives.any fun p => p.exposure < 0.5 }
      (code, aperture) :: apertures

/-! ## Extended (`%…%`) commands (`parser.rs` 2908–3137) -/

def strEndsWith (s p : String) : Bool :=
  listStartsWith s.toList.reverse p.toList.reverse

/-- The `%…%`-stripping common to the extended-command parsers
(`trim_start_matches('%').trim_end_matches('%').trim_end_matches('*')`). -/
def specStr (line : String) : String :=
  trimEndChar (trimEndChar (trimStartChar line '%') '%') '*'

/-- Parse of a single digit character (`chars[pos].to_string().parse::<u32>()`). -/
def parseDigitChar (c : Char) : Option ℕ := parseU32 ⟨[c]⟩

/-- `parse_format_spec` (`parser.rs` 2911–2987). -/
def parse_format_spec (line : String) (state : ParserState) : ParserState :=
  let spec_str := specStr line
  if !strStartsWith spec_str ("FS") then state
  else
    let chars := (strDrop spec_str 2).toList
    -- pos 0: L/T zeros flag (read and ignored); pos 1: A/I mode
    if chars.length = 0 then state
    else if chars.length < 2 then state
    else
      let mode := chars.getD 1 ' '
      -- X format block (pos = 2)
      let xRes : FormatSpec × ℕ :=
        if 2 < chars.length && chars.getD 2 ' ' = 'X' then
          if 3 + 1 < chars.length then
            (match parseDigitChar (chars.getD 3 ' '), parseDigitChar (chars.getD 4 ' ') with
             | some int_digits, some dec_digits =>
               ({ state.format_spec with
                   x_integer_digits := int_digits
                   x_decimal_digits := dec_digits }, 5)
             | _, _ => (state.format_spec, 5))
          else (state.format_spec, 3)
        else (state.format_spec, 2)
      let fs1 := xRes.1
      let pos := xRes.2
      -- Y format block
      let fs2 : FormatSpec :=
        if pos < chars.length && chars.getD pos ' ' = 'Y' then
          if pos + 1 + 1 < chars.length then
            (match parseDigitChar (chars.getD (pos + 1) ' '),
                parseDigitChar (chars.getD (pos + 2) ' ') with
             | some int_digits, some dec_digits =>
               { fs1 with
                  y_integer_digits := int_digits
                  y_decimal_digits := dec_digits }
             | _, _ => fs1)
          else fs1
        else fs1
      let coordinate_mode := if mode = 'I' then ("incremental") else ("absolute")
      let fs3 :=
        { fs2 with
           x_divisor := (10 : F32) ^ fs2.x_decimal_digits
           y_divisor := (10 : F32) ^ fs2.y_decimal_digits
           x_total_digits := ((fs2.x_integer_digits + fs2.x_decimal_digits : ℕ) : ℤ)
           y_total_digits := ((fs2.y_integer_digits + fs2.y_decimal_digits : ℕ) : ℤ) }
      { state with coordinate_mode := coordinate_mode, format_spec := fs3 }

/-- One field extraction of `parse_sr` (`find` a key character, take the run
allowed by `stop`, parse it). -/
def srField (cs : List Char) (key : Char) (stop : Char → Bool) : Option String :=
  match cs.findIdx? (fun c => c = key) with
  | none => none
  | some pos =>
    let part := cs.drop (pos + 1)
    let pend :=
      match part.findIdx? stop with
      | some e => e
      | none => part.length
    some ⟨part.take pend⟩

/-- `parse_sr` (`parser.rs` 2991–3047).  Note: a field absent from the command
leaves the corresponding state component unchanged — `%SR*%` changes nothing. -/
def parse_sr (line : String) (state : ParserState) : ParserState :=
  let spec_str := specStr line
  if !strStartsWith spec_str ("SR") then state
  else
    let cs := (strDrop spec_str 2).toList
    let st1 :=
      match srField cs 'X' (fun c => !c.isDigit) with
      | some xs =>
        (match parseU32 xs with
         | some x_count => { state with sr_x := x_count }
         | none => state)
      | none => state
    let st2 :=
      match srField cs 'Y' (fun c => !c.isDigit && c ≠ '-' && c ≠ '.') with
      | some ys =>
        (match parseU32 ys with
         | some y_count => { st1 with sr_y := y_count }
         | none => st1)
      | none => st1
    let st3 :=
      match srField cs 'I' (fun c => !c.isDigit && c ≠ '-' && c ≠ '.') with
      | some is_ =>
        (match parseF32 is_ with
         | some i_step => { st2 with sr_i := i_step }
         | none => st2)
      | none => st2
    match srField cs 'J' (fun c => !c.isDigit && c ≠ '-' && c ≠ '.') with
    | some js =>
      (match parseF32 js with
       | some j_step => { st3 with sr_j := j_step }
       | none => st3)
    | none => st3

/-- `parse_lp` (`parser.rs` 3051–3090): on a polarity change with pending
primitives, flush them into the list of the *old* polarity. -/
def parse_lp (line : String) (state : ParserState) (current_primitives : List Primitive)
    (positive_layers negative_layers : List (List Primitive)) :
    ParserState × List Primitive × List (List Primitive) × List (List Primitive) :=
  let spec_str := specStr line
  if !strStartsWith spec_str ("LP") then
    (state, current_primitives, positive_layers, negative_layers)
  else
    match spec_str.toList.get? 2 with
    | some 'D' =>
      parseLpSet Polarity.positive state current_primitives positive_layers negative_layers
    | some 'C' =>
      parseLpSet Polarity.negative state current_primitives positive_layers negative_layers
    | _ => (state, current_primitives, positive_layers, negative_layers)
where
  parseLpSet (new_polarity : Polarity) (state : ParserState)
      (current_primitives : List Primitive)
      (positive_layers negative_layers : List (List Primitive)) :
      ParserState × List Primitive × List (List Primitive) × List (List Primitive) :=
    if state.polarity ≠ new_polarity && !current_primitives.isEmpty then
      if state.polarity = Polarity.positive then
        ({ state with polarity := new_polarity }, [],
          positive_layers ++ [current_primitives], negative_layers)
      else
        ({ state with polarity := new_polarity }, [],
          positive_layers, negative_layers ++ [current_primitives])
    else
      ({ state with polarity := new_polarity }, current_primitives,
        positive_layers, negative_layers)

/-- `parse_if` (`parser.rs` 3092–3114). -/
def parse_if (line : String) (state : ParserState) : ParserState :=
  let spec_str := specStr line
  if !strStartsWith spec_str ("IF") then state
  else
    let polarity_str := strDrop spec_str 2
    if polarity_str = "POS" then { state with polarity := Polarity.positive }
    else if polarity_str = "NEG" then { state with polarity := Polarity.negative }
    else state

/-- `parse_mo` (`parser.rs` 3117–3137). -/
def parse_mo (line : String) (state : ParserState) : ParserState :=
  let spec_str := specStr line
  if !strStartsWith spec_str ("MO") then state
  else
    let unit_str := strDrop spec_str 2
    if unit_str = "MM" then { state with unit_multiplier := 1 }
    else if unit_str = "IN" then { state with unit_multiplier := 25.4 }
    else state

/-! ## The parser object and main loop (`parser.rs` 1648–1755, 1930–2001) -/

/-- `GerberParser` (`parser.rs` 1649–1660). -/
structure GerberParser where
  apertures : ApertureMap
  macros : MacroMap
  current_state : ParserState
  positive_layers : List (List Primitive)
  negative_layers : List (List Primitive)
  current_primitives : List Primitive
  region_contours : List (List Vec2)
  units : String
  format_spec : FormatSpec
  deriving DecidableEq

/-- `GerberParser::new` (`parser.rs` 1664–1676). -/
def GerberParser.new : GerberParser :=
  { apertures := [], macros := [], current_state := ParserState.default
    positive_layers := [], negative_layers := [], current_primitives := []
    region_contours := [], units := "mm", format_spec := FormatSpec.default }

/-- The multi-line `%…%` reassembly loop of `parse_command`
(`parser.rs` 1942–1959): scan forward from `i` collecting trimmed lines until
one ends in `%` (fuel-structural; `parse` supplies enough fuel). -/
def scanToPercentEnd (lines : List String) : ℕ → ℕ → List String → List String × ℕ
  | 0, i, buffer => (buffer, i)
  | fuel + 1, i, buffer =>
    if i < lines.length then
      let next_line := rustTrim (lines.getD i (""))
      let buffer2 := buffer ++ [next_line]
      if strEndsWith next_line ("%") then (buffer2, i)
      else scanToPercentEnd lines fuel (i + 1) buffer2
    else (buffer, i)

/-- `parse_command` (`parser.rs` 1930–2001).  Returns the updated parser and
line index.  `%AB`, `%LM`, `%LR` and `%LS` are TODO no-ops in the source. -/
def parse_command (E : Externals) (line_ref : String) (i : ℕ) (lines : List String)
    (g : GerberParser) : GerberParser × ℕ :=
  let asm : String × ℕ :=
    if !strEndsWith line_ref ("%") then
      let r := scanToPercentEnd lines (lines.length + 1) (i + 1) [line_ref]
      (r.1.foldl (fun a b => a ++ b) (""), r.2)
    else (line_ref, i)
  let line := asm.1
  let i2 := asm.2
  if strStartsWith line ("%AM") then
    ({ g with macros := parse_macro line g.macros }, i2)
  else if strStartsWith line ("%ADD") then
    ({ g with apertures :=
        parse_aperture E line g.apertures g.macros g.current_state.unit_multiplier }, i2)
  else if strStartsWith line ("%MO") then
    ({ g with current_state := parse_mo line g.current_state }, i2)
  else if strStartsWith line ("%FS") then
    ({ g with current_state := parse_format_spec line g.current_state }, i2)
  else if strStartsWith line ("%LP") then
    let r := parse_lp line g.current_state g.current_primitives g.positive_layers
      g.negative_layers
    ({ g with
        current_state := r.1
        current_primitives := r.2.1
        positive_layers := r.2.2.1
        negative_layers := r.2.2.2 }, i2)
  else if strStartsWith line ("%SR") then
    ({ g with current_state := parse_sr line g.current_state }, i2)
  else if strStartsWith line ("%IF") then
    ({ g with current_state := parse_if line g.current_state }, i2)
  else (g, i2)

/-- The `while i < length` loop of `GerberParser::parse` (`parser.rs`
1685–1725); fuel-structural, one fuel per iteration (the index advances by at
least one per iteration, so `length + 1` fuel always suffices). -/
def parseAux (E : Externals) (lines : List String) : ℕ → ℕ → GerberParser → GerberParser
  | 0, _, g => g
  | fuel + 1, i, g =>
    if i < lines.length then
      let line_ref := rustTrim (lines.getD i (""))
      if strEmpty line_ref then parseAux E lines fuel (i + 1) g
      else if strStartsWith line_ref ("%") then
        let r := parse_command E line_ref i lines g
        parseAux E lines fuel (r.2 + 1) r.1
      else if strStartsWith line_ref ("G04") then parseAux E lines fuel (i + 1) g
      else if strStartsWith line_ref ("G") || strStartsWith line_ref ("D") ||
          strStartsWith line_ref ("X") || strStartsWith line_ref ("Y") ||
          strStartsWith line_ref ("I") || strStartsWith line_ref ("J") then
        let r := parse_graphic_command E line_ref g.current_state g.apertures
          g.current_primitives g.region_contours
        parseAux E lines fuel (i + 1)
          { g with
             current_state := r.1
             current_primitives := r.2.1
             region_contours := r.2.2 }
      else parseAux E lines fuel (i + 1) g
    else g

/-! ## Struct-of-arrays output (`shape.rs`, `parser.rs` 1766–1927) -/

/-- `Triangles` (`shape.rs` 7–10). -/
structure Triangles where
  vertices : List F32
  indices : List ℕ
  deriving DecidableEq

/-- `Circles` (`shape.rs` 34–38). -/
structure Circles where
  x : List F32
  y : List F32
  radius : List F32
  deriving DecidableEq

/-- `Arcs` (`shape.rs` 67–74). -/
structure Arcs where
  x : List F32
  y : List F32
  radius : List F32
  start_angle : List F32
  sweep_angle : List F32
  thickness : List F32
  deriving DecidableEq

/-- `Thermals` (`shape.rs` 132–139). -/
structure Thermals where
  x : List F32
  y : List F32
  outer_diameter : List F32
  inner_diameter : List F32
  gap_thickness : List F32
  rotation : List F32
  deriving DecidableEq

/-- `Boundary` (`shape.rs` 197–202). -/
structure Boundary where
  min_x : F32
  max_x : F32
  min_y : F32
  max_y : F32
  deriving DecidableEq

/-- `GerberData` (`shape.rs` 240–246). -/
structure GerberData where
  triangles : Triangles
  circles : Circles
  arcs : Arcs
  thermals : Thermals
  boundary : Boundary
  deriving DecidableEq

/-- Accumulator of the SoA-building loop of `primitives_to_gerber_data`. -/
structure GDAcc where
  triangle_vertices : List F32
  triangle_indices : List ℕ
  circles_x : List F32
  circles_y : List F32
  circles_radius : List F32
  arcs_x : List F32
  arcs_y : List F32
  arcs_radius : List F32
  arcs_start_angle : List F32
  arcs_sweep_angle : List F32
  arcs_thickness : List F32
  thermals_x : List F32
  thermals_y : List F32
  thermals_outer_diameter : List F32
  thermals_inner_diameter : List F32
  thermals_gap_thickness : List F32
  thermals_rotation : List F32
  vertex_offset : ℕ

def GDAcc.empty : GDAcc :=
  ⟨[], [], [], [], [], [], [], [], [], [], [], [], [], [], [], [], [], 0⟩

/-- Group a flat coordinate list into `(x, y)` pairs (the `step_by(2)` loop of
the boundary computation; a dangling element — impossible here, the list is
built from pairs — is skipped where the source would panic). -/
def coordPairs : List F32 → List Vec2
  | x :: y :: rest => (x, y) :: coordPairs rest
  | _ => []

/-- Extend an accumulating boundary (`none` models the untouched
`±f32::INFINITY` sentinels of the source). -/
def boundInclude (b : Option Boundary) (lox hix loy hiy : F32) : Option Boundary :=
  match b with
  | none => some ⟨lox, hix, loy, hiy⟩
  | some bb => some ⟨F32.fmin bb.min_x lox, F32.fmax bb.max_x hix,
      F32.fmin bb.min_y loy, F32.fmax bb.max_y hiy⟩

/-- `GerberParser::primitives_to_gerber_data` (`parser.rs` 1767–1927).
`TO_MM` is modelled as the exact `1/1000` (the `f32` constant `1.0/1000.0` is
the nearest representable to it). -/
def primitives_to_gerber_data (primitives : List Primitive) : GerberData :=
  let TO_MM : F32 := ⟨1, 1000⟩
  let acc := primitives.foldl (fun a p =>
    match p with
    | .triangle vertices _ =>
      { a with
         triangle_vertices := a.triangle_vertices ++
           vertices.foldl (fun l v => l ++ [v.1 * TO_MM, v.2 * TO_MM]) []
         triangle_indices := a.triangle_indices ++
           [a.vertex_offset, a.vertex_offset + 1, a.vertex_offset + 2]
         vertex_offset := a.vertex_offset + 3 }
    | .circle x y radius _ =>
      { a with
         circles_x := a.circles_x ++ [x * TO_MM]
         circles_y := a.circles_y ++ [y * TO_MM]
         circles_radius := a.circles_radius ++ [radius * TO_MM] }
    | .arc x y radius start_angle end_angle thickness _ =>
      { a with
         arcs_x := a.arcs_x ++ [x * TO_MM]
         arcs_y := a.arcs_y ++ [y * TO_MM]
         arcs_radius := a.arcs_radius ++ [radius * TO_MM]
         arcs_start_angle := a.arcs_start_angle ++ [start_angle]
         arcs_sweep_angle := a.arcs_sweep_angle ++ [end_angle - start_angle]
         arcs_thickness := a.arcs_thickness ++ [thickness * TO_MM] }
    | .thermal x y od idia gt rot _ =>
      { a with
         thermals_x := a.thermals_x ++ [x * TO_MM]
         thermals_y := a.thermals_y ++ [y * TO_MM]
         thermals_outer_diameter := a.thermals_outer_diameter ++ [od * TO_MM]
         thermals_inner_diameter := a.thermals_inner_diameter ++ [idia * TO_MM]
         thermals_gap_thickness := a.thermals_gap_thickness ++ [gt * TO_MM]
         thermals_rotation := a.thermals_rotation ++ [rot] }) GDAcc.empty
  let b0 := (coordPairs acc.triangle_vertices).foldl
    (fun b v => boundInclude b v.1 v.1 v.2 v.2) none
  let b1 := ((acc.circles_x.zip acc.circles_y).zip acc.circles_radius).foldl
    (fun b p =>
      let x := p.1.1
      let y := p.1.2
      let r := p.2
      boundInclude b (x - r) (x + r) (y - r) (y + r)) b0
  let b2 := (((acc.arcs_x.zip acc.arcs_y).zip acc.arcs_radius).zip acc.arcs_thickness).foldl
    (fun b p =>
      let x := p.1.1.1
      let y := p.1.1.2
      let r := p.1.2
      let t := p.2
      let outer := r + t / 2
      boundInclude b (x - outer) (x + outer) (y - outer) (y + outer)) b1
  let b3 := ((acc.thermals_x.zip acc.thermals_y).zip acc.thermals_outer_diameter).foldl
    (fun b p =>
      let x := p.1.1
      let y := p.1.2
      let r := p.2 / 2
      boundInclude b (x - r) (x + r) (y - r) (y + r)) b2
  { triangles := ⟨acc.triangle_vertices, acc.triangle_indices⟩
    circles := ⟨acc.circles_x, acc.circles_y, acc.circles_radius⟩
    arcs := ⟨acc.arcs_x, acc.arcs_y, acc.arcs_radius, acc.arcs_start_angle,
      acc.arcs_sweep_angle, acc.arcs_thickness⟩
    thermals := ⟨acc.thermals_x, acc.thermals_y, acc.thermals_outer_diameter,
      acc.thermals_inner_diameter, acc.thermals_gap_thickness, acc.thermals_rotation⟩
    boundary := b3.getD ⟨0, 0, 0, 0⟩ }

/-- The interleaving loop at the end of `GerberParser::parse`
(`parser.rs` 1738–1752): for each index emit the positive then the negative
layer, skipping absent entries. -/
def gerber_data_layers (positive_layers negative_layers : List (List Primitive)) :
    List GerberData :=
  (List.range (max positive_layers.length negative_layers.length)).foldl
    (fun acc idx =>
      let acc2 :=
        match positive_layers.get? idx with
        | some l => acc ++ [primitives_to_gerber_data l]
        | none => acc
      match negative_layers.get? idx with
      | some l => acc2 ++ [primitives_to_gerber_data l]
      | none => acc2) []

/-- The same interleaving loop, with each emitted sublayer tagged by the
polarity list it came from (specification-side provenance annotation). -/
def interleave_tagged (positive_layers negative_layers : List (List Primitive)) :
    List (Polarity × List Primitive) :=
  (List.range (max positive_layers.length negative_layers.length)).foldl
    (fun acc idx =>
      let acc2 :=
        match positive_layers.get? idx with
        | some l => acc ++ [(Polarity.positive, l)]
        | none => acc
      match negative_layers.get? idx with
      | some l => acc2 ++ [(Polarity.negative, l)]
      | none => acc2) []

/-- `GerberParser::parse` (`parser.rs` 1680–1755), returning the final parser
state alongside the produced sublayers (the parser's fields persist in the
source; the returned value is the `Ok(gerber_data_layers)`). -/
def GerberParser.parse (E : Externals) (data : String) : GerberParser × List GerberData :=
  let lines := splitStr data '\n'
  let g1 := parseAux E lines (lines.length + 1) 0 GerberParser.new
  let g2 :=
    if !g1.current_primitives.isEmpty then
      if g1.current_state.polarity = Polarity.positive then
        { g1 with positive_layers := g1.positive_layers ++ [g1.current_primitives] }
      else
        { g1 with negative_layers := g1.negative_layers ++ [g1.current_primitives] }
    else g1
  (g2, gerber_data_layers g2.positive_layers g2.negative_layers)

/-- `parse_gerber` (`parser.rs` 2758–2761). -/
def parse_gerber (E : Externals) (data : String) : List GerberData :=
  (GerberParser.parse E data).2

/-! ## Renderer layer lifecycle (`renderer.rs` 296–463)

WebGL object handles are modelled as numeric ids.  Each modelled operation
additionally returns the trace of `gl.delete_*` calls its body performs, which
is how the release-on-removal property is expressed; the bodies of
`remove_layer` and `clear_all` in the source contain no `gl` calls at all, so
their traces are empty. -/

/-- `Fbo` (`renderer.rs` 296–299). -/
structure Fbo where
  framebuffer : ℕ
  texture : ℕ
  deriving DecidableEq

/-- `BufferCache` (`renderer.rs` 303–332). -/
structure BufferCache where
  quad_buffer : ℕ
  triangle_vao : Option ℕ
  triangle_vertex_buffer : Option ℕ
  triangle_index_buffer : Option ℕ
  circle_vao : Option ℕ
  circle_center_buffer : Option ℕ
  circle_radius_buffer : Option ℕ
  arc_vao : Option ℕ
  arc_center_buffer : Option ℕ
  arc_radius_buffer : Option ℕ
  arc_start_angle_buffer : Option ℕ
  arc_sweep_angle_buffer : Option ℕ
  arc_thickness_buffer : Option ℕ
  thermal_vao : Option ℕ
  thermal_center_buffer : Option ℕ
  thermal_outer_diameter_buffer : Option ℕ
  thermal_inner_diameter_buffer : Option ℕ
  thermal_gap_thickness_buffer : Option ℕ
  thermal_rotation_buffer : Option ℕ
  deriving DecidableEq

/-- `LayerMetadata` (`renderer.rs` 335–340). -/
structure LayerMetadata where
  gerber_data : List GerberData
  fbo : Fbo
  buffer_caches : List BufferCache
  boundary : Boundary
  deriving DecidableEq

/-- The layer-related state of `Renderer` (`renderer.rs` 343–353); the host
graphics context, shader programs and camera are opaque host objects and are
not modelled (no claim depends on them). -/
structure Renderer where
  layers : List (Option LayerMetadata)
  layer_count : ℕ
  quad_buffer : ℕ
  deriving DecidableEq

/-- A WebGL object-deletion call (`gl.delete_framebuffer` etc.). -/
inductive GlDelete where
  | framebuffer (id : ℕ)
  | texture (id : ℕ)
  | vertexArray (id : ℕ)
  | buffer (id : ℕ)
  deriving DecidableEq

/-- `Renderer::remove_layer` (`renderer.rs` 446–457), with the trace of
`gl.delete_*` calls its body performs.  The body only overwrites the slot with
`None` and decrements the count: the trace is empty. -/
def Renderer.remove_layer (r : Renderer) (layer_id : ℕ) :
    Except String (Renderer × List GlDelete) :=
  if r.layers.length ≤ layer_id || (r.layers.getD layer_id none).isNone then
    .error (("Invalid layer_id: ") ++ toString layer_id)
  else
    .ok ({ r with layers := r.layers.set layer_id none, layer_count := r.layer_count - 1 }, [])

/-- `Renderer::clear_all` (`renderer.rs` 460–463), with its (empty) trace of
`gl.delete_*` calls. -/
def Renderer.clear_all (r : Renderer) : Renderer × List GlDelete :=
  ({ r with layers := [], layer_count := 0 }, [])

/-! ## Real-valued model of the arc sweep (`parser.rs` 2394–2419)

The arc branch of `execute_interpolation` computes its angles with `f32`
`atan2`; the angle computation is modelled here exactly over `ℝ`
(`atan2R` is the mathematical function `f32::atan2` approximates). -/

/-- The two-argument arctangent (`f32::atan2(y, x)` over `ℝ`). -/
noncomputable def atan2R (y x : ℝ) : ℝ :=
  if 0 < x then Real.arctan (y / x)
  else if x < 0 then
    if 0 ≤ y then Real.arctan (y / x) + Real.pi
    else Real.arctan (y / x) - Real.pi
  else
    if 0 < y then Real.pi / 2
    else if y < 0 then -(Real.pi / 2)
    else 0

/-- The sweep-angle normalization of `execute_interpolation`
(`parser.rs` 2402–2411) over `ℝ`: direction sign only, no quadrant clamp. -/
noncomputable def arc_sweep_angle (is_clockwise : Bool) (start_angle end_angle : ℝ) : ℝ :=
  let sweep := end_angle - start_angle
  if is_clockwise = true ∧ 0 < sweep then sweep - 2 * Real.pi
  else if is_clockwise = false ∧ sweep < 0 then sweep + 2 * Real.pi
  else sweep

-- sanity checks mirroring the source's own `test_negative_numbers` unit test
example : evaluate_expression ("$1-$2") [(("$1"), 5), (("$2"), -2)] = .ok 7 := by decide
example : evaluate_expression ("-5+3") [] = .ok (-2) := by decide
example : evaluate_expression ("$2X$3") [(("$2"), -2), (("$3"), 3)] = .ok (-6) := by decide
example : evaluate_expression ("-$1+$2") [(("$1"), 5), (("$2"), -2)] = .ok (-7) := by decide

/-! # Theorems

The remainder of the file settles the verified properties against the model
above. -/

/-! ## Interleaving and polarity parity (claim C1) -/

/-- Concatenation of the image of `f` (own flat-map helper, kept structural
for kernel evaluation). -/
def flatList {α β : Type} (f : α → List β) : List α → List β
  | [] => []
  | x :: xs => f x ++ flatList f xs

theorem foldl_append_flatList {α β : Type} (f : α → List β) :
    ∀ (l : List α) (acc : List β),
      l.foldl (fun a x => a ++ f x) acc = acc ++ flatList f l := by
  intro l
  induction l with
  | nil => intro acc; simp [flatList]
  | cons x xs ih => intro acc; simp [flatList, ih, List.append_assoc]

theorem flatList_map_succ {β : Type} (f : ℕ → List β) :
    ∀ (l : List ℕ), flatList f (l.map Nat.succ) = flatList (fun i => f (i + 1)) l := by
  intro l
  induction l with
  | nil => rfl
  | cons x xs ih => simp [flatList, ih]

theorem map_flatList {α β γ : Type} (f : α → List β) (g : β → γ) :
    ∀ (l : List α), (flatList f l).map g = flatList (fun x => (f x).map g) l := by
  intro l
  induction l with
  | nil => rfl
  | cons x xs ih => simp [flatList, ih]

theorem flatList_congr {α β : Type} {f g : α → List β} (h : ∀ x, f x = g x) :
    ∀ (l : List α), flatList f l = flatList g l := by
  intro l
  induction l with
  | nil => rfl
  | cons x xs ih => simp [flatList, ih, h]

/-- One index step of the interleaving loop: the (possibly empty) tagged
emissions at `idx`. -/
def interleaveEmit (pos neg : List (List Primitive)) (idx : ℕ) :
    List (Polarity × List Primitive) :=
  (match pos.get? idx with
   | some l => [(Polarity.positive, l)]
   | none => []) ++
  (match neg.get? idx with
   | some l => [(Polarity.negative, l)]
   | none => [])

theorem interleave_tagged_eq_flat (pos neg : List (List Primitive)) :
    interleave_tagged pos neg
      = flatList (interleaveEmit pos neg) (List.range (max pos.length neg.length)) := by
  unfold interleave_tagged
  have h : (fun (acc : List (Polarity × List Primitive)) idx =>
      let acc2 :=
        match pos.get? idx with
        | some l => acc ++ [(Polarity.positive, l)]
        | none => acc
      match neg.get? idx with
      | some l => acc2 ++ [(Polarity.negative, l)]
      | none => acc2)
      = fun acc idx => acc ++ interleaveEmit pos neg idx := by
    funext acc idx
    cases hp : pos[idx]? <;> cases hn : neg[idx]? <;>
      simp [interleaveEmit, hp, hn]
  rw [h, foldl_append_flatList]
  simp

theorem gerber_data_layers_eq_map (pos neg : List (List Primitive)) :
    gerber_data_layers pos neg
      = (interleave_tagged pos neg).map (fun t => primitives_to_gerber_data t.2) := by
  rw [interleave_tagged_eq_flat]
  unfold gerber_data_layers
  have h : (fun (acc : List GerberData) idx =>
      let acc2 :=
        match pos.get? idx with
        | some l => acc ++ [primitives_to_gerber_data l]
        | none => acc
      match neg.get? idx with
      | some l => acc2 ++ [primitives_to_gerber_data l]
      | none => acc2)
      = fun acc idx =>
          acc ++ (interleaveEmit pos neg idx).map (fun t => primitives_to_gerber_data t.2) := by
    funext acc idx
    cases hp : pos[idx]? <;> cases hn : neg[idx]? <;>
      simp [interleaveEmit, hp, hn]
  rw [h, foldl_append_flatList, map_flatList]
  simp

theorem interleaveEmit_succ (a b : List Primitive) (pos neg : List (List Primitive))
    (i : ℕ) : interleaveEmit (a :: pos) (b :: neg) (i + 1) = interleaveEmit pos neg i := by
  simp [interleaveEmit]

theorem interleave_tagged_cons_cons (a b : List Primitive)
    (pos neg : List (List Primitive)) :
    interleave_tagged (a :: pos) (b :: neg)
      = (Polarity.positive, a) :: (Polarity.negative, b) :: interleave_tagged pos neg := by
  rw [interleave_tagged_eq_flat, interleave_tagged_eq_flat]
  have hmax : max (a :: pos).length (b :: neg).length = max pos.length neg.length + 1 := by
    simp [Nat.succ_max_succ]
  rw [hmax, List.range_succ_eq_map]
  show interleaveEmit (a :: pos) (b :: neg) 0 ++
      flatList (interleaveEmit (a :: pos) (b :: neg))
        ((List.range (max pos.length neg.length)).map Nat.succ) = _
  rw [flatList_map_succ,
    flatList_congr (fun i => interleaveEmit_succ a b pos neg i)]
  rfl

theorem interleaveEmit_cons_nil_succ (a : List Primitive) (pos : List (List Primitive))
    (i : ℕ) : interleaveEmit (a :: pos) [] (i + 1) = interleaveEmit pos [] i := by
  simp [interleaveEmit]

theorem interleave_tagged_cons_nil (a : List Primitive) (pos : List (List Primitive)) :
    interleave_tagged (a :: pos) []
      = (Polarity.positive, a) :: interleave_tagged pos [] := by
  rw [interleave_tagged_eq_flat, interleave_tagged_eq_flat]
  have hmax : max (a :: pos).length ([] : List (List Primitive)).length
      = max pos.length ([] : List (List Primitive)).length + 1 := by
    simp
  rw [hmax, List.range_succ_eq_map]
  show interleaveEmit (a :: pos) [] 0 ++
      flatList (interleaveEmit (a :: pos) [])
        ((List.range (max pos.length ([] : List (List Primitive)).length)).map Nat.succ) = _
  rw [flatList_map_succ,
    flatList_congr (fun i => interleaveEmit_cons_nil_succ a pos i)]
  rfl

theorem interleave_tagged_nil_nil :
    interleave_tagged ([] : List (List Primitive)) [] = [] := by
  rw [interleave_tagged_eq_flat]; rfl

/-- Parity of the tagged interleave under balanced layer counts. -/
theorem interleave_parity_of_balanced :
    ∀ (neg pos : List (List Primitive)),
      neg.length ≤ pos.length → pos.length ≤ neg.length + 1 →
      ∀ (k : ℕ) (p : Polarity × List Primitive),
        (interleave_tagged pos neg).get? k = some p →
        p.1 = (if k % 2 = 0 then Polarity.positive else Polarity.negative) := by
  intro neg
  induction neg with
  | nil =>
    intro pos h1 h2 k p hp
    match pos, h2 with
    | [], _ =>
      rw [interleave_tagged_nil_nil] at hp
      simp at hp
    | [a], _ =>
      rw [interleave_tagged_cons_nil, interleave_tagged_nil_nil] at hp
      match k with
      | 0 => simp at hp; simp [← hp]
      | k + 1 => simp at hp
    | a :: b :: rest, h2 =>
      simp only [List.length_cons, List.length_nil] at h2
      omega
  | cons b neg ih =>
    intro pos h1 h2 k p hp
    match pos with
    | [] =>
      simp only [List.length_cons, List.length_nil] at h1
      omega
    | a :: pos =>
      rw [interleave_tagged_cons_cons] at hp
      match k with
      | 0 => simp at hp; simp [← hp]
      | 1 => simp at hp; simp [← hp]
      | k + 2 =>
        simp only [List.get?_cons_succ] at hp
        have h1' : neg.length ≤ pos.length := by
          simp only [List.length_cons] at h1; omega
        have h2' : pos.length ≤ neg.length + 1 := by
          simp only [List.length_cons] at h2; omega
        have hres := ih pos h1' h2' k p hp
        simpa [Nat.add_mod_right] using hres

/-- Claim C1 (counterexample): for the input whose only flash happens under
`%LPC*%`, `GerberParser::parse` returns a single sublayer that came from a
negative-polarity run, sitting at the even index 0 — so index parity does not
encode polarity.  (The input places a 0.5-size circular flash at the origin
after switching polarity to clear.) -/
theorem c1_parity_counterexample :
    (GerberParser.parse defaultExternals
        ("%ADD10C,0.5*%\nD10*\n%LPC*%\nX0Y0D03*")).1.positive_layers = []
    ∧ (GerberParser.parse defaultExternals
        ("%ADD10C,0.5*%\nD10*\n%LPC*%\nX0Y0D03*")).1.negative_layers
        = [[Primitive.circle 0 0 (0.25 : F32) 1]]
    ∧ (GerberParser.parse defaultExternals
        ("%ADD10C,0.5*%\nD10*\n%LPC*%\nX0Y0D03*")).2.length = 1
    ∧ (interleave_tagged
        (GerberParser.parse defaultExternals
          ("%ADD10C,0.5*%\nD10*\n%LPC*%\nX0Y0D03*")).1.positive_layers
        (GerberParser.parse defaultExternals
          ("%ADD10C,0.5*%\nD10*\n%LPC*%\nX0Y0D03*")).1.negative_layers).get? 0
        = some (Polarity.negative, [Primitive.circle 0 0 (0.25 : F32) 1]) := by
  refine ⟨by decide, by decide, by decide, by decide⟩

/-- Claim C1 (amended): the sublayers returned by `GerberParser::parse` are the
interleave `[pos₀, neg₀, pos₁, neg₁, …]` of the final polarity layer lists with
absent entries skipped; index parity encodes polarity whenever the final layer
counts are balanced (`|neg| ≤ |pos| ≤ |neg| + 1`), which a file can violate
(e.g. when its only geometry is emitted under `%LPC*%`). -/
theorem c1_interleave_and_parity (E : Externals) (data : String)
    (pos neg : List (List Primitive))
    (h1 : neg.length ≤ pos.length) (h2 : pos.length ≤ neg.length + 1) :
    (GerberParser.parse E data).2
      = (interleave_tagged (GerberParser.parse E data).1.positive_layers
          (GerberParser.parse E data).1.negative_layers).map
          (fun t => primitives_to_gerber_data t.2)
    ∧ ∀ (k : ℕ) (p : Polarity × List Primitive),
        (interleave_tagged pos neg).get? k = some p →
        p.1 = (if k % 2 = 0 then Polarity.positive else Polarity.negative) := by
  constructor
  · have h : (GerberParser.parse E data).2
        = gerber_data_layers (GerberParser.parse E data).1.positive_layers
            (GerberParser.parse E data).1.negative_layers := rfl
    rw [h, gerber_data_layers_eq_map]
  · exact interleave_parity_of_balanced neg pos h1 h2

/-- Witness for `c1_interleave_and_parity` at a concrete balanced instance. -/
theorem c1_interleave_and_parity_witness :
    (([] : List (List Primitive)).length ≤ [[Primitive.circle 0 0 1 1]].length
      ∧ [[Primitive.circle 0 0 1 1]].length ≤ ([] : List (List Primitive)).length + 1)
    ∧ ((GerberParser.parse defaultExternals ("X0Y0D03*")).2
        = (interleave_tagged
            (GerberParser.parse defaultExternals ("X0Y0D03*")).1.positive_layers
            (GerberParser.parse defaultExternals ("X0Y0D03*")).1.negative_layers).map
            (fun t => primitives_to_gerber_data t.2)
      ∧ ∀ (k : ℕ) (p : Polarity × List Primitive),
          (interleave_tagged [[Primitive.circle 0 0 1 1]] []).get? k = some p →
          p.1 = (if k % 2 = 0 then Polarity.positive else Polarity.negative)) :=
  ⟨⟨by decide, by decide⟩,
   c1_interleave_and_parity defaultExternals ("X0Y0D03*")
     [[Primitive.circle 0 0 1 1]] [] (by decide) (by decide)⟩

/-! ## The single-circular-flash scenario (claim C2) -/

/-- Claim C2 (counterexample): parsing the spec's exact one-line input
`%FSLAX24Y24*%%MOMM*%%ADD10C,0.5*%D10*X0Y0D03*M02*` produces no sublayers at
all, not one: the line starts with `%` but does not end with `%`, so the
multi-line `%…%` reassembly of `parse_command` swallows the entire line as a
single extended command, of which only the leading `%FS` dispatch applies; no
aperture is defined and no flash executes. -/
theorem c2_single_flash_counterexample :
    (parse_gerber defaultExternals
      ("%FSLAX24Y24*%%MOMM*%%ADD10C,0.5*%D10*X0Y0D03*M02*")).length = 0 := by decide

/-- Claim C2 (amended): the one-line input from the claim yields an empty
sublayer list (only its `%FS` prefix is applied).  With the same commands on
separate lines, parsing produces exactly one sublayer holding exactly one
circle, flashed with exposure 1 at the primitive level; due to the extra
`TO_MM = 1/1000` scaling of `primitives_to_gerber_data`, the emitted circle is
at `(0,0)` with radius `0.25/1000 = 1/4000` and the boundary is
`±1/4000` — not `0.25` and `±0.25` (the model computes the exact `1/1000`
where the `f32` constant is the nearest representable).  The source's
`GerberData` carries no exposure or hole fields.  The computation path —
format spec, unit mode, `C`-aperture definition, aperture select, single
clone-flash — never reaches the abstracted external libraries, which are
instantiated by the inert `defaultExternals`. -/
theorem c2_single_flash_amended :
    parse_gerber defaultExternals
      ("%FSLAX24Y24*%%MOMM*%%ADD10C,0.5*%D10*X0Y0D03*M02*") = []
    ∧ (GerberParser.parse defaultExternals
        ("%FSLAX24Y24*%\n%MOMM*%\n%ADD10C,0.5*%\nD10*\nX0Y0D03*\nM02*")).1.positive_layers
        = [[Primitive.circle 0 0 (0.25 : F32) 1]]
    ∧ parse_gerber defaultExternals
        ("%FSLAX24Y24*%\n%MOMM*%\n%ADD10C,0.5*%\nD10*\nX0Y0D03*\nM02*")
        = [{ triangles := ⟨[], []⟩
             circles := ⟨[0], [0], [⟨1, 4000⟩]⟩
             arcs := ⟨[], [], [], [], [], []⟩
             thermals := ⟨[], [], [], [], [], []⟩
             boundary := ⟨⟨-1, 4000⟩, ⟨1, 4000⟩, ⟨-1, 4000⟩, ⟨1, 4000⟩⟩ }] := by
  refine ⟨by decide, by decide, by decide⟩

/-! ## Step-and-repeat reset (claim C5) -/

/-- Claim C5 (counterexample): after `%SRX2Y2I5J5*%`-like settings, the
parameterless `%SR*%` does *not* reset the step-and-repeat state to
`(1, 1, 0, 0)` — it leaves `(2, 2, 5, 5)` in place — and therefore does not
leave the parser state identical to `%SRX1Y1I0J0*%`. -/
theorem c5_sr_reset_counterexample :
    (parse_sr ("%SR*%")
      { ParserState.default with sr_x := 2, sr_y := 2, sr_i := 5, sr_j := 5 }).sr_x = 2
    ∧ (parse_sr ("%SR*%")
      { ParserState.default with sr_x := 2, sr_y := 2, sr_i := 5, sr_j := 5 }).sr_y = 2
    ∧ (parse_sr ("%SR*%")
      { ParserState.default with sr_x := 2, sr_y := 2, sr_i := 5, sr_j := 5 }).sr_i = 5
    ∧ (parse_sr ("%SR*%")
      { ParserState.default with sr_x := 2, sr_y := 2, sr_i := 5, sr_j := 5 }).sr_j = 5
    ∧ parse_sr ("%SR*%")
        { ParserState.default with sr_x := 2, sr_y := 2, sr_i := 5, sr_j := 5 }
      ≠ parse_sr ("%SRX1Y1I0J0*%")
        { ParserState.default with sr_x := 2, sr_y := 2, sr_i := 5, sr_j := 5 } := by
  refine ⟨by decide, by decide, by decide, by decide, by decide⟩

/-- Claim C5 (amended): `%SR*%` with no parameters leaves the whole parser
state unchanged (each of the X/Y/I/J fields is only written when present in
the command), whereas `%SRX1Y1I0J0*%` sets the step-and-repeat state to
`(1, 1, 0, 0)`; the two are therefore equivalent only when the prior
step-and-repeat state is already `(1, 1, 0, 0)`. -/
theorem c5_sr_empty_is_noop (state : ParserState) :
    parse_sr ("%SR*%") state = state
    ∧ parse_sr ("%SRX1Y1I0J0*%") state
        = { state with sr_x := 1, sr_y := 1, sr_i := 0, sr_j := 0 } := by
  constructor
  · rfl
  · rfl

/-! ## Arc sweep in single-quadrant mode (claim C3) -/

theorem F32.zero_le_abs (x : F32) : (0 : F32) ≤ x.abs := by
  show F32.ble 0 x.abs = true
  have h : 0 ≤ x.abs.n := by
    unfold F32.abs
    split
    · next hlt => simpa using le_of_lt (neg_pos.mpr hlt)
    · next hge => omega
  unfold F32.ble
  have e1 : (0 : F32).n = 0 := rfl
  have e2 : (0 : F32).d = 1 := rfl
  rw [e1, e2]
  simpa using h

/-- The computed I offset is non-negative whenever the quadrant mode is
single (`raw_i.abs()`; `parser.rs` 2142–2146). -/
theorem targetI_single_nonneg (state : ParserState) (im : Option String) :
    (0 : F32) ≤ targetI { state with quadrant_mode := ("single") } im := by
  cases im with
  | none =>
    show (0 : F32) ≤ (0 : F32)
    decide
  | some v =>
    simp only [targetI]
    rw [if_pos trivial]
    exact F32.zero_le_abs _

/-- The computed J offset is non-negative whenever the quadrant mode is
single (`raw_j.abs()`; `parser.rs` 2153–2157). -/
theorem targetJ_single_nonneg (state : ParserState) (jm : Option String) :
    (0 : F32) ≤ targetJ { state with quadrant_mode := ("single") } jm := by
  cases jm with
  | none =>
    show (0 : F32) ≤ (0 : F32)
    decide
  | some v =>
    simp only [targetJ]
    rw [if_pos trivial]
    exact F32.zero_le_abs _

/-- `atan2R` always lands in `(-π, π]` (the IEEE `atan2` range). -/
theorem atan2R_range (y x : ℝ) : -Real.pi < atan2R y x ∧ atan2R y x ≤ Real.pi := by
  have hπ := Real.pi_pos
  unfold atan2R
  split
  · next hx =>
    have h1 := Real.neg_pi_div_two_lt_arctan (y / x)
    have h2 := Real.arctan_lt_pi_div_two (y / x)
    constructor <;> linarith
  · next hx =>
    split
    · next hx2 =>
      split
      · next hy =>
        have hyx : y / x ≤ 0 := div_nonpos_iff.mpr (Or.inl ⟨hy, hx2.le⟩)
        have harc : Real.arctan (y / x) ≤ 0 := by
          have := Real.arctan_strictMono.monotone hyx
          rwa [Real.arctan_zero] at this
        have h1 := Real.neg_pi_div_two_lt_arctan (y / x)
        constructor <;> linarith
      · next hy =>
        have hy' : y < 0 := not_le.mp hy
        have hyx : 0 < y / x := div_pos_of_neg_of_neg hy' hx2
        have harc : 0 < Real.arctan (y / x) := by
          have := Real.arctan_strictMono hyx
          rwa [Real.arctan_zero] at this
        have h2 := Real.arctan_lt_pi_div_two (y / x)
        constructor <;> linarith
    · next hx2 =>
      split
      · constructor <;> linarith
      · split
        · constructor <;> linarith
        · constructor <;> linarith

/-- Claim C3 (counterexample): the concrete single-quadrant counterclockwise
arc command `G74*` `G03*` from `(0,0)` to `(20,0)` with `I` = 10, `J` = 0 (all
in converted units) makes `execute_interpolation` compute the center `(10,0)`,
`start_angle = atan2(0, -10)` and `end_angle = atan2(0, 10)`; the emitted
sweep is exactly `π` — magnitude greater than `π/2`, with no clamp to 90°. -/
theorem c3_sweep_counterexample :
    arc_sweep_angle false (atan2R 0 (-10)) (atan2R 0 10) = Real.pi
    ∧ Real.pi / 2 < arc_sweep_angle false (atan2R 0 (-10)) (atan2R 0 10) := by
  have hπ := Real.pi_pos
  have h1 : atan2R 0 (-10) = Real.pi := by
    unfold atan2R
    rw [if_neg (by norm_num), if_pos (by norm_num), if_pos le_rfl]
    norm_num
  have h2 : atan2R 0 10 = 0 := by
    unfold atan2R
    rw [if_pos (by norm_num)]
    norm_num
  have hval : arc_sweep_angle false (atan2R 0 (-10)) (atan2R 0 10) = Real.pi := by
    rw [h1, h2]
    unfold arc_sweep_angle
    rw [if_neg (by simp), if_pos (by constructor <;> [rfl; linarith])]
    ring
  exact ⟨hval, by rw [hval]; linarith⟩

/-- Claim C3 (amended): in single-quadrant mode the parsed I/J offsets are
made non-negative, but the emitted arc sweep is *not* clamped to ±π/2:
`execute_interpolation` only normalizes the sweep to the commanded direction —
into `(-2π, 0]` for clockwise and `[0, 2π)` for counterclockwise — regardless
of the quadrant mode, so its magnitude can reach up to (but not including)
`2π`. -/
theorem c3_sweep_direction_only (cw : Bool) (y1 x1 y2 x2 : ℝ)
    (state : ParserState) (im jm : Option String) :
    (if cw = true then
       -(2 * Real.pi) < arc_sweep_angle cw (atan2R y1 x1) (atan2R y2 x2)
         ∧ arc_sweep_angle cw (atan2R y1 x1) (atan2R y2 x2) ≤ 0
     else
       0 ≤ arc_sweep_angle cw (atan2R y1 x1) (atan2R y2 x2)
         ∧ arc_sweep_angle cw (atan2R y1 x1) (atan2R y2 x2) < 2 * Real.pi)
    ∧ (0 : F32) ≤ targetI { state with quadrant_mode := ("single") } im
    ∧ (0 : F32) ≤ targetJ { state with quadrant_mode := ("single") } jm := by
  refine ⟨?_, targetI_single_nonneg state im, targetJ_single_nonneg state jm⟩
  obtain ⟨ha1, ha2⟩ := atan2R_range y1 x1
  obtain ⟨hb1, hb2⟩ := atan2R_range y2 x2
  have hπ := Real.pi_pos
  simp only [arc_sweep_angle]
  cases cw with
  | true =>
    rw [if_pos rfl]
    by_cases hs : 0 < atan2R y2 x2 - atan2R y1 x1
    · rw [if_pos ⟨rfl, hs⟩]
      constructor <;> linarith
    · rw [if_neg (fun h => hs h.2), if_neg (by simp)]
      constructor <;> linarith [not_lt.mp hs]
  | false =>
    rw [if_neg (by simp)]
    by_cases hs : atan2R y2 x2 - atan2R y1 x1 < 0
    · rw [if_neg (by simp), if_pos ⟨rfl, hs⟩]
      constructor <;> linarith
    · rw [if_neg (by simp), if_neg (fun h => hs h.2)]
      constructor <;> linarith [not_lt.mp hs]

/-! ## Flash under step-and-repeat (claim C4) -/

theorem flatList_length_const {α β : Type} (f : α → List β) (c : ℕ) :
    ∀ (l : List α), (∀ x ∈ l, (f x).length = c) → (flatList f l).length = l.length * c := by
  intro l
  induction l with
  | nil => intro _; simp [flatList]
  | cons x xs ih =>
    intro h
    have hx := h x (List.mem_cons_self x xs)
    have hxs := ih fun a ha => h a (List.mem_cons_of_mem x ha)
    simp [flatList, hx, hxs]
    ring

/-- Claim C4: flashing an aperture with `has_negative = false` appends exactly
`|primitives| · sr_x · sr_y` primitives — for each grid cell
`(sx, sy) ∈ [0, sr_x) × [0, sr_y)` one copy of each aperture primitive
translated by `(x + sx·sr_i, y + sy·sr_j)`, all other fields unchanged
(`offset_primitive_by` only shifts positions). -/
theorem c4_flash_clone_grid (E : Externals) (state : ParserState)
    (apertures : ApertureMap) (primitives : List Primitive) (x y : F32)
    (ap : Aperture)
    (hlook : apertures.lookup state.current_aperture = some ap)
    (hneg : ap.has_negative = false) :
    flash_aperture E state apertures primitives x y
      = primitives ++ flatList (fun (sy : Nat) =>
          flatList (fun (sx : Nat) =>
            ap.primitives.map (fun p =>
              offset_primitive_by p (x + (sx : F32) * state.sr_i)
                (y + (sy : F32) * state.sr_j)))
            (List.range state.sr_x))
          (List.range state.sr_y)
    ∧ (flash_aperture E state apertures primitives x y).length
        = primitives.length + ap.primitives.length * state.sr_x * state.sr_y := by
  have hmain : flash_aperture E state apertures primitives x y
      = primitives ++ flatList (fun (sy : Nat) =>
          flatList (fun (sx : Nat) =>
            ap.primitives.map (fun p =>
              offset_primitive_by p (x + (sx : F32) * state.sr_i)
                (y + (sy : F32) * state.sr_j)))
            (List.range state.sr_x))
          (List.range state.sr_y) := by
    unfold flash_aperture
    rw [hlook]
    simp only [hneg, Bool.false_eq_true, if_false, foldl_append_flatList]
  refine ⟨hmain, ?_⟩
  rw [hmain, List.length_append]
  congr 1
  have hinner : ∀ sy ∈ List.range state.sr_y,
      (flatList (fun (sx : Nat) =>
        ap.primitives.map (fun p =>
          offset_primitive_by p (x + (sx : F32) * state.sr_i)
            (y + (sy : F32) * state.sr_j)))
        (List.range state.sr_x)).length = state.sr_x * ap.primitives.length := by
    intro sy _
    rw [flatList_length_const _ ap.primitives.length _ (fun sx _ => by simp)]
    simp
  rw [flatList_length_const _ (state.sr_x * ap.primitives.length) _ hinner]
  rw [List.length_range]
  ring

def srDemoAperture : Aperture :=
  { code := ("10")
    shape := ("C")
    radius := 0.25
    primitives := [Primitive.circle 0 0 (0.25 : F32) 1]
    has_negative := false }

def srDemoState : ParserState :=
  { ParserState.default with
     current_aperture := ("10")
     sr_x := 2
     sr_y := 2
     sr_i := 5
     sr_j := 5 }

/-- Witness for `c4_flash_clone_grid`: a 0.25-radius circular aperture flashed
at the origin under `%SRX2Y2I5J5*%`-style settings. -/
theorem c4_flash_clone_grid_witness :
    (List.lookup srDemoState.current_aperture [(("10"), srDemoAperture)]
        = some srDemoAperture
      ∧ srDemoAperture.has_negative = false)
    ∧ (flash_aperture defaultExternals srDemoState [(("10"), srDemoAperture)] [] 0 0
        = [] ++ flatList (fun (sy : Nat) =>
            flatList (fun (sx : Nat) =>
              srDemoAperture.primitives.map (fun p =>
                offset_primitive_by p (0 + (sx : F32) * srDemoState.sr_i)
                  (0 + (sy : F32) * srDemoState.sr_j)))
              (List.range srDemoState.sr_x))
            (List.range srDemoState.sr_y)
      ∧ (flash_aperture defaultExternals srDemoState
          [(("10"), srDemoAperture)] [] 0 0).length
          = ([] : List Primitive).length
            + srDemoAperture.primitives.length * srDemoState.sr_x * srDemoState.sr_y) :=
  ⟨⟨by decide, by decide⟩,
   c4_flash_clone_grid defaultExternals srDemoState [(("10"), srDemoAperture)] [] 0 0
     srDemoAperture (by decide) (by decide)⟩

/-! ## Chained multiplication in the expression evaluator (claim C6) -/

/-- Claim C6 (counterexample): `1*2*3` does not evaluate to 6 — the first pass
folds `1*2` and then skips past the folded value, leaving `[2, *, 3]`, and the
second pass fails with `Unexpected operator: *`. -/
theorem c6_chained_mul_counterexample :
    calculate_simple_expression ("1*2*3") [] = .error ("Unexpected operator: *") := by
  decide

/-- Claim C6 (amended): evaluation is two passes (`*`/`/` first, then `+`/`-`),
but the first pass folds only *disjoint* operator triples in one
left-to-right scan, never reconsidering a computed value: a lone product
`a*b` works, while a chained `a*b*c` leaves a stray `*` token that makes the
second pass fail with an `Unexpected operator` error. -/
theorem c6_mul_fold_disjoint (vars : VarMap) (a b c : F32) :
    apply_multiplication_division vars [.inr a, .inl ("*"), .inr b] = .ok [.inr (a * b)]
    ∧ apply_multiplication_division vars
        [.inr a, .inl ("*"), .inr b, .inl ("*"), .inr c]
        = .ok [.inr (a * b), .inl ("*"), .inr c]
    ∧ apply_addition_subtraction [.inr (a * b), .inl ("*"), .inr c] vars
        = .error ("Unexpected operator: *")
    ∧ calculate_simple_expression ("1*2*3") vars = .error ("Unexpected operator: *") :=
  ⟨rfl, rfl, rfl, rfl⟩

/-! ## Parenthesized grouping (claim C7) -/

/-- Claim C7 (counterexample): `(1+2)*3` does not evaluate to 9 — the
tokenizer emits the parentheses as tokens (and, by the sign-handling quirk,
glues `1+2` into one token), but the evaluation passes never consume
parentheses, so evaluation fails with `Invalid number: )`. -/
theorem c7_paren_counterexample :
    calculate_simple_expression ("(1+2)*3") [] = .error ("Invalid number: )") := by
  decide

/-- Claim C7 (amended): parentheses are tokenized but never consumed by either
evaluation pass, so parenthesized expressions fail instead of grouping: the
claim's own examples `(1+2)*3` and `$1/($2+1)` both return errors, the latter
for every value of the `$1` and `$2` variables. -/
theorem c7_parens_never_consumed (vars : VarMap) (v1 v2 : F32) :
    tokenize ("(1+2)*3") = .ok [("("), ("1+2"), (")"), ("*"), ("3")]
    ∧ calculate_simple_expression ("(1+2)*3") vars = .error ("Invalid number: )")
    ∧ (evaluate_expression ("$1/($2+1)") [(("$1"), v1), (("$2"), v2)]).isOk = false :=
  ⟨by decide, rfl, rfl⟩

/-! ## Division by zero and macro-statement cancellation (claim C8) -/

/-- Claim C8 (counterexample): in `1*1/0` the right operand of the division is
zero, yet evaluation does not return the division-by-zero error: the `/`
survives the first pass unfolded (it follows the folded `1*1` triple) and the
second pass fails with `Unexpected operator: /` instead. -/
theorem c8_div_zero_counterexample :
    calculate_simple_expression ("1*1/0") [] = .error ("Unexpected operator: /") := by
  decide

/-- Claim C8 (amended): a division that the first pass actually folds (its
operands are adjacent value tokens) with a zero right operand returns
`Division by zero` without performing the division; a `/` left unfolded by the
disjoint-triple limitation yields an `Unexpected operator` error instead — in
both cases no division is performed.  During macro instantiation, a primitive
statement whose parsing fails (e.g. by division by zero in one of its
expressions) is cancelled alone: it appends nothing and leaves the variable
table unchanged, so the remaining statements instantiate exactly as if the
failing statement were absent. -/
theorem c8_division_guard_and_cancel (vars : VarMap) (t1 t2 : EvalTok)
    (rest : List EvalTok) (v : F32)
    (h1 : token_to_value t1 vars = .ok v)
    (h2 : token_to_value t2 vars = .ok 0)
    (E : Externals) (params : List F32) (name : String) (hneg : Bool)
    (ss1 ss2 : List String) (bad : String)
    (hb1 : strEmpty (rustTrim bad) = false)
    (hb2 : strStartsWith (rustTrim bad) ("0 ") = false)
    (hb3 : ¬ rustTrim bad = ("0"))
    (hb4 : (strStartsWith (rustTrim bad) ("$") && strContainsChar (rustTrim bad) '=')
        = false)
    (hb5 : parse_primitive_statement E (rustTrim bad)
        ((ss1.foldl (instantiateStep E) (macroInitVars params, [])).1) = none) :
    apply_multiplication_division vars (t1 :: .inl ("/") :: t2 :: rest)
      = .error ("Division by zero")
    ∧ ApertureMacro.instantiate E ⟨name, ss1 ++ bad :: ss2, hneg⟩ params
        = ApertureMacro.instantiate E ⟨name, ss1 ++ ss2, hneg⟩ params := by
  constructor
  · simp only [apply_multiplication_division, h1, h2]
    rfl
  · unfold ApertureMacro.instantiate
    simp only [List.foldl_append, List.foldl_cons]
    have hstep : instantiateStep E
        (ss1.foldl (instantiateStep E) (macroInitVars params, [])) bad
        = ss1.foldl (instantiateStep E) (macroInitVars params, []) := by
      simp [instantiateStep, hb1, hb2, hb3, hb4, hb5]
    rw [hstep]

/-- Witness for `c8_division_guard_and_cancel`: `$1/0` with `$1 = 5`, inside
the macro `1,1,1,0,0* / 1,1,$1/0,0,0* / 1,1,2,0,0*`. -/
theorem c8_division_guard_and_cancel_witness :
    (token_to_value (.inl ("$1")) [(("$1"), (5 : F32))] = .ok 5
      ∧ token_to_value (.inl ("0")) [(("$1"), (5 : F32))] = .ok 0
      ∧ strEmpty (rustTrim ("1,1,$1/0,0,0")) = false
      ∧ strStartsWith (rustTrim ("1,1,$1/0,0,0")) ("0 ") = false
      ∧ ¬ rustTrim ("1,1,$1/0,0,0") = ("0")
      ∧ (strStartsWith (rustTrim ("1,1,$1/0,0,0")) ("$")
          && strContainsChar (rustTrim ("1,1,$1/0,0,0")) '=') = false
      ∧ parse_primitive_statement defaultExternals (rustTrim ("1,1,$1/0,0,0"))
          (([("1,1,1,0,0")].foldl (instantiateStep defaultExternals)
            (macroInitVars [5], [])).1) = none)
    ∧ (apply_multiplication_division [(("$1"), (5 : F32))]
        [.inl ("$1"), .inl ("/"), .inl ("0")] = .error ("Division by zero")
      ∧ ApertureMacro.instantiate defaultExternals
          ⟨("M"), [("1,1,1,0,0")] ++ ("1,1,$1/0,0,0") :: [("1,1,2,0,0")], false⟩ [5]
          = ApertureMacro.instantiate defaultExternals
            ⟨("M"), [("1,1,1,0,0")] ++ [("1,1,2,0,0")], false⟩ [5]) :=
  ⟨⟨by decide, by decide, by decide, by decide, by decide, by decide, by decide⟩,
   c8_division_guard_and_cancel [(("$1"), (5 : F32))] (.inl ("$1")) (.inl ("0")) [] 5
     (by decide) (by decide) defaultExternals [5] ("M") false
     [("1,1,1,0,0")] [("1,1,2,0,0")] ("1,1,$1/0,0,0")
     (by decide) (by decide) (by decide) (by decide) (by decide)⟩

/-! ## WebGL object release on layer removal (claim C9) -/

def demoBufferCache : BufferCache :=
  { quad_buffer := 4
    triangle_vao := some 3
    triangle_vertex_buffer := some 5
    triangle_index_buffer := some 6
    circle_vao := none
    circle_center_buffer := none
    circle_radius_buffer := none
    arc_vao := none
    arc_center_buffer := none
    arc_radius_buffer := none
    arc_start_angle_buffer := none
    arc_sweep_angle_buffer := none
    arc_thickness_buffer := none
    thermal_vao := none
    thermal_center_buffer := none
    thermal_outer_diameter_buffer := none
    thermal_inner_diameter_buffer := none
    thermal_gap_thickness_buffer := none
    thermal_rotation_buffer := none }

def demoLayer : LayerMetadata :=
  { gerber_data := []
    fbo := ⟨1, 2⟩
    buffer_caches := [demoBufferCache]
    boundary := ⟨0, 0, 0, 0⟩ }

def demoRenderer : Renderer :=
  { layers := [some demoLayer]
    layer_count := 1
    quad_buffer := 4 }

/-- Claim C9 (code evaluation at the failing input): removing the only layer
of a renderer — a layer owning framebuffer #1, texture #2, a cached triangle
VAO #3 and vertex/index buffers #5/#6 — performs *no* `gl.delete_*` call
whatsoever (the deletion trace is empty); the slot is merely overwritten with
`None` and the count decremented.  `clear_all` likewise deletes nothing.  The
framebuffer, texture, cached vertex arrays and buffers are never released. -/
theorem c9_remove_layer_no_deletes :
    Renderer.remove_layer demoRenderer 0
      = .ok ({ layers := [none], layer_count := 0, quad_buffer := 4 },
          ([] : List GlDelete))
    ∧ (Renderer.clear_all demoRenderer).2 = ([] : List GlDelete) := by
  refine ⟨by decide, by decide⟩

/-! ## Flash/stroke with an undefined aperture (claim C10) -/

set_option maxHeartbeats 1000000 in
/-- Claim C10: when the current aperture code has no entry in the aperture
table, `flash_aperture` and `execute_interpolation` append nothing, and for
any graphic command without a `G` code `parse_graphic_command` leaves the
primitive list unchanged while still updating the current position to the
commanded coordinates. -/
theorem c10_missing_aperture_noop (E : Externals) (line : String)
    (state : ParserState) (apertures : ApertureMap) (primitives : List Primitive)
    (region_contours : List (List Vec2)) (x y i j : F32)
    (hlook : apertures.lookup state.current_aperture = none)
    (hg : extract_value (trimEndChar line '*') 'G' = none) :
    flash_aperture E state apertures primitives x y = primitives
    ∧ execute_interpolation E state apertures primitives x y i j = primitives
    ∧ (parse_graphic_command E line state apertures primitives region_contours).2.1
        = primitives
    ∧ (parse_graphic_command E line state apertures primitives region_contours).1.x
        = targetX state (extract_value (trimEndChar line '*') 'X')
    ∧ (parse_graphic_command E line state apertures primitives region_contours).1.y
        = targetY state (extract_value (trimEndChar line '*') 'Y') := by
  have hflash : ∀ (prims : List Primitive) (px py : F32),
      flash_aperture E state apertures prims px py = prims := by
    intro prims px py
    simp [flash_aperture, hlook]
  have hexec : ∀ (st2 : ParserState), st2.current_aperture = state.current_aperture →
      ∀ (prims : List Primitive) (ex ey ii jj : F32),
        execute_interpolation E st2 apertures prims ex ey ii jj = prims := by
    intro st2 hst prims ex ey ii jj
    simp [execute_interpolation, hst, hlook]
  refine ⟨hflash primitives x y, hexec state rfl primitives x y i j, ?_, ?_, ?_⟩
  · simp only [parse_graphic_command, hg]
    rcases hd : extract_value (trimEndChar line '*') 'D' with _ | dval
    · dsimp only
      split_ifs
      · rfl
      · rfl
      · exact hexec state rfl primitives _ _ _ _
      · rfl
    · rcases hpu : parseU32 dval with _ | dcode
      · dsimp only
        rw [hpu]
      · dsimp only
        rw [hpu]
        dsimp only
        split_ifs
        · rfl
        · rfl
        · exact hexec _ rfl primitives _ _ _ _
        · rfl
        · rfl
        · rfl
        · exact hflash primitives _ _
        · rfl
        · rfl
        · rfl
  · simp only [parse_graphic_command, hg]
  · simp only [parse_graphic_command, hg]

/-- Witness for `c10_missing_aperture_noop`: `X100Y200D03` before any aperture
was selected or defined. -/
theorem c10_missing_aperture_noop_witness :
    (List.lookup ParserState.default.current_aperture ([] : ApertureMap) = none
      ∧ extract_value (trimEndChar ("X100Y200D03*") '*') 'G' = none)
    ∧ (flash_aperture defaultExternals ParserState.default [] [] 1 2 = []
      ∧ execute_interpolation defaultExternals ParserState.default [] [] 1 2 3 4 = []
      ∧ (parse_graphic_command defaultExternals ("X100Y200D03*") ParserState.default
          [] [] []).2.1 = []
      ∧ (parse_graphic_command defaultExternals ("X100Y200D03*") ParserState.default
          [] [] []).1.x
          = targetX ParserState.default
              (extract_value (trimEndChar ("X100Y200D03*") '*') 'X')
      ∧ (parse_graphic_command defaultExternals ("X100Y200D03*") ParserState.default
          [] [] []).1.y
          = targetY ParserState.default
              (extract_value (trimEndChar ("X100Y200D03*") '*') 'Y')) :=
  ⟨⟨by decide, by decide⟩,
   c10_missing_aperture_noop defaultExternals ("X100Y200D03*") ParserState.default
     [] [] [] 1 2 3 4 (by decide) (by decide)⟩

end GerberViewer
